import Mathlib

/-!
A verification development for the native (Rust) core of the j4rs JNI bridge.

The definitions below are a shallow embedding of `src/rust/src/api.rs` and its
collaborators (`errors.rs`, `utils.rs`, `api_tweaks/mod.rs`).  The JNI world
(class/method resolution, the pending-exception flag, reference promotion) is
modelled as explicit state; machine pointers are `Nat` ids; fallible Rust code
returns `Except J4RsError`.  A few items used by `api.rs` live in files that
are not part of the sources at hand (`cache.rs`, `jni_utils.rs`, and the
`primitive_of`/`to_c_string` half of `utils.rs`); each such item is modelled
from the specification and marked as modelled in its doc comment.
-/

namespace J4rs

/-- Error taxonomy, from `errors.rs` (`enum J4RsError`). -/
inductive J4RsError where
  | GeneralError (msg : String)
  | JavaError (msg : String)
  | JniError (msg : String)
  | RustError (msg : String)
  | ParseError (msg : String)
  deriving DecidableEq

/-- `jni_sys::JNI_OK`. -/
def JNI_OK : Int := 0
/-- `jni_sys::JNI_ERR`. -/
def JNI_ERR : Int := -1
/-- `jni_sys::JNI_EDETACHED`. -/
def JNI_EDETACHED : Int := -2
/-- `jni_sys::JNI_EVERSION`. -/
def JNI_EVERSION : Int := -3
/-- `jni_sys::JNI_ENOMEM`. -/
def JNI_ENOMEM : Int := -4
/-- `jni_sys::JNI_EEXIST`. -/
def JNI_EEXIST : Int := -5
/-- `jni_sys::JNI_EINVAL`. -/
def JNI_EINVAL : Int := -6

/-- The error-message table of `Jvm::create_jvm` (api.rs 147-155). -/
def jniErrorMessage (result : Int) : String :=
  if result = JNI_EDETACHED then "thread detached from the JVM"
  else if result = JNI_EEXIST then "JVM already created"
  else if result = JNI_EINVAL then "invalid arguments"
  else if result = JNI_ENOMEM then "not enough memory"
  else if result = JNI_ERR then "unknown error"
  else if result = JNI_EVERSION then "JNI version error"
  else "unknown JNI error value"

/-- Modelled from the spec: `errors::opt_to_res` is imported by `api.rs`
(line 52) but is missing from the `errors.rs` at hand.  Per the error taxonomy
(spec §7), a missing cached JNI item is a `JniError`
("native-interop failure: ... null-pointer method/class resolution"). -/
def opt_to_res {α : Type} (o : Option α) : Except J4RsError α :=
  match o with
  | some v => Except.ok v
  | none => Except.error (J4RsError.JniError "Cached JNI item not found")

/-- The names of the Reference Cache entries populated by `Jvm::try_from`
(api.rs 194-685), in the non-Android configuration.  One constructor per
`cache::set_*` call site. -/
inductive CEntry where
  | factory_class
  | factory_constructor_method
  | invocation_arg_class
  | factory_instantiate_method
  | factory_create_for_static_method
  | factory_create_java_array_method
  | factory_create_java_list_method
  | native_invocation_class
  | invoke_method
  | invoke_static_method
  | invoke_to_channel_method
  | init_callback_channel_method
  | field_method
  | class_to_invoke_clone_and_cast
  | clone_static_method
  | cast_static_method
  | get_json_method
  | inv_arg_java_constructor_method
  | inv_arg_rust_constructor_method
  | inv_arg_basic_rust_constructor_method
  | integer_class
  | integer_constructor_method
  | long_class
  | long_constructor_method
  | short_class
  | short_constructor_method
  | byte_class
  | byte_constructor_method
  | float_class
  | float_constructor_method
  | double_class
  | double_constructor_method
  deriving DecidableEq

/-- Modelled from the spec: `cache::INST_CLASS_NAME` (cache.rs is not among
the sources).  The JNI path of the bootstrap factory class
(`NativeInstantiationImpl`, api.rs 193-199); the exact literal is immaterial
to the claims. -/
def INST_CLASS_NAME : String :=
  "org/astonbitecode/j4rs/api/instantiation/NativeInstantiationImpl"

/-- Modelled from the spec: `cache::INVO_IFACE_NAME` (cache.rs is not among
the sources).  The JNI path of the `NativeInvocation` call-proxy interface
(api.rs 229-240, 320-329); the exact literal is immaterial to the claims. -/
def INVO_IFACE_NAME : String := "org/astonbitecode/j4rs/api/NativeInvocation"

/-- Modelled from the spec: `cache::UNKNOWN_FOR_RUST` (cache.rs is not among
the sources).  The fixed sentinel class-name recorded in Instances whose
runtime class the native side does not know (api.rs 986, 1016, 2097); the
claims only require it to be one fixed string. -/
def UNKNOWN_FOR_RUST : String := "Unknown for Rust"

/-- The method signature built for `instantiate`, `createJavaArray`,
`createJavaList` (api.rs 229-240) and `invoke`/`invokeStatic`
(api.rs 333-335, 352-354): identical format strings in the source. -/
def stringAndArgsSig : String :=
  "(Ljava/lang/String;[Lorg/astonbitecode/j4rs/api/dtos/InvocationArg;)L"
    ++ INVO_IFACE_NAME ++ ";"

/-- The `createForStatic` signature (api.rs 232-234). -/
def createForStaticSig : String := "(Ljava/lang/String;)L" ++ INVO_IFACE_NAME ++ ";"

/-- The `field` signature (api.rs 405-407). -/
def fieldSig : String := "(Ljava/lang/String;)L" ++ INVO_IFACE_NAME ++ ";"

/-- The `cloneInstance` signature (api.rs 436-439). -/
def cloneSig : String := "(L" ++ INVO_IFACE_NAME ++ ";)L" ++ INVO_IFACE_NAME ++ ";"

/-- The `cast` signature (api.rs 456-459). -/
def castSig : String :=
  "(L" ++ INVO_IFACE_NAME ++ ";Ljava/lang/String;)L" ++ INVO_IFACE_NAME ++ ";"

/-- The `InvocationArg` Java-created-arg constructor signature (api.rs 495). -/
def invArgJavaCtorSig : String := "(Ljava/lang/String;L" ++ INVO_IFACE_NAME ++ ";)V"

/-- How one cache entry is resolved: a class looked up by JNI name, a method id
looked up by owner/name/signature (instance or static), or a plain alias of an
already-resolved entry (no JNI call). -/
inductive EntryKind where
  | classEntry (jniName : String)
  | methodOf (owner : CEntry) (name : String) (sig : String) (isStatic : Bool)
  | aliasOf (src : CEntry)
  deriving DecidableEq

/-- The resolution recipe of each cache entry, read off the corresponding
block of `Jvm::try_from` (api.rs 194-685, non-Android path: the
`class_to_invoke_clone_and_cast` entry is stored as `native_invocation_class`
without any lookup, api.rs 426-432). -/
def entrySpec : CEntry → EntryKind
  | CEntry.factory_class => EntryKind.classEntry INST_CLASS_NAME
  | CEntry.factory_constructor_method =>
      EntryKind.methodOf CEntry.factory_class "<init>" "()V" false
  | CEntry.invocation_arg_class =>
      EntryKind.classEntry "org/astonbitecode/j4rs/api/dtos/InvocationArg"
  | CEntry.factory_instantiate_method =>
      EntryKind.methodOf CEntry.factory_class "instantiate" stringAndArgsSig true
  | CEntry.factory_create_for_static_method =>
      EntryKind.methodOf CEntry.factory_class "createForStatic" createForStaticSig true
  | CEntry.factory_create_java_array_method =>
      EntryKind.methodOf CEntry.factory_class "createJavaArray" stringAndArgsSig true
  | CEntry.factory_create_java_list_method =>
      EntryKind.methodOf CEntry.factory_class "createJavaList" stringAndArgsSig true
  | CEntry.native_invocation_class => EntryKind.classEntry INVO_IFACE_NAME
  | CEntry.invoke_method =>
      EntryKind.methodOf CEntry.native_invocation_class "invoke" stringAndArgsSig false
  | CEntry.invoke_static_method =>
      EntryKind.methodOf CEntry.native_invocation_class "invokeStatic" stringAndArgsSig false
  | CEntry.invoke_to_channel_method =>
      EntryKind.methodOf CEntry.native_invocation_class "invokeToChannel"
        "(JLjava/lang/String;[Lorg/astonbitecode/j4rs/api/dtos/InvocationArg;)V" false
  | CEntry.init_callback_channel_method =>
      EntryKind.methodOf CEntry.native_invocation_class "initializeCallbackChannel" "(J)V" false
  | CEntry.field_method =>
      EntryKind.methodOf CEntry.native_invocation_class "field" fieldSig false
  | CEntry.class_to_invoke_clone_and_cast =>
      EntryKind.aliasOf CEntry.native_invocation_class
  | CEntry.clone_static_method =>
      EntryKind.methodOf CEntry.class_to_invoke_clone_and_cast "cloneInstance" cloneSig true
  | CEntry.cast_static_method =>
      EntryKind.methodOf CEntry.class_to_invoke_clone_and_cast "cast" castSig true
  | CEntry.get_json_method =>
      EntryKind.methodOf CEntry.native_invocation_class "getJson" "()Ljava/lang/String;" false
  | CEntry.inv_arg_java_constructor_method =>
      EntryKind.methodOf CEntry.invocation_arg_class "<init>" invArgJavaCtorSig false
  | CEntry.inv_arg_rust_constructor_method =>
      EntryKind.methodOf CEntry.invocation_arg_class "<init>"
        "(Ljava/lang/String;Ljava/lang/String;)V" false
  | CEntry.inv_arg_basic_rust_constructor_method =>
      EntryKind.methodOf CEntry.invocation_arg_class "<init>"
        "(Ljava/lang/String;Ljava/lang/Object;)V" false
  | CEntry.integer_class => EntryKind.classEntry "java/lang/Integer"
  | CEntry.integer_constructor_method =>
      EntryKind.methodOf CEntry.integer_class "<init>" "(I)V" false
  | CEntry.long_class => EntryKind.classEntry "java/lang/Long"
  | CEntry.long_constructor_method =>
      EntryKind.methodOf CEntry.long_class "<init>" "(J)V" false
  | CEntry.short_class => EntryKind.classEntry "java/lang/Short"
  | CEntry.short_constructor_method =>
      EntryKind.methodOf CEntry.short_class "<init>" "(S)V" false
  | CEntry.byte_class => EntryKind.classEntry "java/lang/Byte"
  | CEntry.byte_constructor_method =>
      EntryKind.methodOf CEntry.byte_class "<init>" "(B)V" false
  | CEntry.float_class => EntryKind.classEntry "java/lang/Float"
  | CEntry.float_constructor_method =>
      EntryKind.methodOf CEntry.float_class "<init>" "(F)V" false
  | CEntry.double_class => EntryKind.classEntry "java/lang/Double"
  | CEntry.double_constructor_method =>
      EntryKind.methodOf CEntry.double_class "<init>" "(D)V" false

/-- The order in which `Jvm::try_from` touches the cache entries: the list is
a transliteration of the top-to-bottom sequence of api.rs 194-685. -/
def resolutionOrder : List CEntry :=
  [ CEntry.factory_class
  , CEntry.factory_constructor_method
  , CEntry.invocation_arg_class
  , CEntry.factory_instantiate_method
  , CEntry.factory_create_for_static_method
  , CEntry.factory_create_java_array_method
  , CEntry.factory_create_java_list_method
  , CEntry.native_invocation_class
  , CEntry.invoke_method
  , CEntry.invoke_static_method
  , CEntry.invoke_to_channel_method
  , CEntry.init_callback_channel_method
  , CEntry.field_method
  , CEntry.class_to_invoke_clone_and_cast
  , CEntry.clone_static_method
  , CEntry.cast_static_method
  , CEntry.get_json_method
  , CEntry.inv_arg_java_constructor_method
  , CEntry.inv_arg_rust_constructor_method
  , CEntry.inv_arg_basic_rust_constructor_method
  , CEntry.integer_class
  , CEntry.integer_constructor_method
  , CEntry.long_class
  , CEntry.long_constructor_method
  , CEntry.short_class
  , CEntry.short_constructor_method
  , CEntry.byte_class
  , CEntry.byte_constructor_method
  , CEntry.float_class
  , CEntry.float_constructor_method
  , CEntry.double_class
  , CEntry.double_constructor_method ]

/-- The Reference Cache contents: what `cache::get_<entry>` answers.
Modelled from the spec (cache.rs is not among the sources): each entry is an
independent `Option` cell, `none` until populated. -/
def Entries : Type := CEntry → Option Nat

/-- `cache::set_<entry>`: populate one cell. -/
def Entries.set (c : Entries) (e : CEntry) (v : Nat) : Entries :=
  fun x => if x = e then some v else c x

/-- Events observable during JVM lifecycle operations. -/
inductive Event where
  | lockAcquired
  | reusedThreadLocalEnv
  | attachedToExistingVm
  | createdNewVm (opts : List String)
  | resolvedClass (jniName : String)
  | resolvedMethod (owner : Nat) (name : String) (sig : String) (isStatic : Bool)
  | excDescribed
  | excCleared
  | nativeLibInit (libname : String)
  | detachedThread
  | clearedThreadLocalEnv
  | lockReleased
  deriving DecidableEq

/-- `true` exactly for the events that perform a JNI name/signature
resolution (`FindClass`, `GetMethodID`, `GetStaticMethodID`). -/
def Event.isResolution : Event → Bool
  | Event.resolvedClass _ => true
  | Event.resolvedMethod _ _ _ _ => true
  | _ => false

/-- The ambient JVM/JNI world consulted by the lifecycle code: which JNI
function pointers the environment exposes, the resolution oracles, whether an
exception is pending at the bring-up check, and what the process-wide
created-VM query and the create-VM call would answer. -/
structure World where
  gmidPresent : Bool
  gsmidPresent : Bool
  ecPresent : Bool
  edPresent : Bool
  exclearPresent : Bool
  findClass : String → Nat
  getMethodId : Nat → String → String → Nat
  getStaticMethodId : Nat → String → String → Nat
  globalRefOf : Nat → Nat
  pendingAfterBringup : Bool
  createdVm : Option Nat
  createVmStatus : Int
  newVmEnv : Nat
  initLibOk : Bool

/-- One get-or-resolve step of `Jvm::try_from`: if the cache cell is populated
it is read and nothing else happens; otherwise the entry is resolved through
JNI (class lookup wrapped in a global ref, api.rs 197-198, or a
`GetMethodID`/`GetStaticMethodID` call on the owning class) and stored.  The
`class_to_invoke_clone_and_cast` alias is stored without a JNI call
(api.rs 426-432). -/
def resolveEntry (w : World) (c : Entries) (e : CEntry) : Entries × List Event :=
  match c e with
  | some _ => (c, [])
  | none =>
    match entrySpec e with
    | EntryKind.classEntry n =>
        (c.set e (w.globalRefOf (w.findClass n)), [Event.resolvedClass n])
    | EntryKind.methodOf owner n sig isStatic =>
        let ownerRef := (c owner).getD 0
        let mid := if isStatic then w.getStaticMethodId ownerRef n sig
                   else w.getMethodId ownerRef n sig
        (c.set e mid, [Event.resolvedMethod ownerRef n sig isStatic])
    | EntryKind.aliasOf src =>
        (c.set e ((c src).getD 0), [])

/-- The entry-resolution body of `Jvm::try_from` (api.rs 194-685): the
get-or-resolve steps in source order. -/
def resolveAll (w : World) : Entries → List CEntry → Entries × List Event
  | c, [] => (c, [])
  | c, e :: rest =>
      let p := resolveEntry w c e
      let q := resolveAll w p.1 rest
      (q.1, p.2 ++ q.2)

/-- `struct Jvm` (api.rs 66-70): the environment pointer plus the
detach-on-drop flag. -/
structure Jvm where
  jni_env : Nat
  detach_thread_on_drop : Bool
  deriving DecidableEq

/-- The process-wide mutable state owned by `cache.rs`: the Reference Cache
cells, the thread-local environment pointer of the calling thread, and the
active-handle counter. -/
structure LState where
  entries : Entries
  thread_local_env : Option Nat
  active_jvms : Int

/-- The check of api.rs 191-192: the five JNI function pointers
(`GetMethodID`, `GetStaticMethodID`, `ExceptionCheck`, `ExceptionDescribe`,
`ExceptionClear`) read from the environment must all be present. -/
def World.jniFnsPresent (w : World) : Bool :=
  w.gmidPresent && w.gsmidPresent && w.ecPresent && w.edPresent && w.exclearPresent

/-- The tail of `Jvm::try_from` after the resolution pass, parameterized by
the pass's outcome `p` (new cache, events): the pending-exception check of
api.rs 687-690 (describe, clear, `JavaError`), else build the handle with
`detach_thread_on_drop = true`, set the thread-local environment if unset,
and increment the active-handle counter (api.rs 692-702). -/
def tryFromTail (w : World) (env : Nat) (s : LState) (p : Entries × List Event) :
    Except J4RsError Jvm × LState × List Event :=
  if w.pendingAfterBringup then
    (Except.error (J4RsError.JavaError "The VM cannot be started... Please check the logs."),
     { s with entries := p.1 }, p.2 ++ [Event.excDescribed, Event.excCleared])
  else
    let jvm : Jvm := { jni_env := env, detach_thread_on_drop := true }
    let tle := if s.thread_local_env.isNone then some env else s.thread_local_env
    (Except.ok jvm,
     { entries := p.1, thread_local_env := tle, active_jvms := s.active_jvms + 1 },
     p.2)

/-- `Jvm::try_from` (api.rs 172-710), non-Android path: require the five
checked JNI function pointers (api.rs 191-192, otherwise `JniError`,
api.rs 705-707), resolve every cache entry lazily (`resolveAll`), then run
the bring-up tail (`tryFromTail`).
The caching of the raw `jni_sys` function pointers themselves (api.rs 174-189)
is modelled by the five presence flags of the `World`. -/
def Jvm.try_from (w : World) (env : Nat) (s : LState) :
    Except J4RsError Jvm × LState × List Event :=
  if w.jniFnsPresent then
    tryFromTail w env s (resolveAll w s.entries resolutionOrder)
  else
    (Except.error (J4RsError.JniError
      "Could not initialize the JVM: Error while trying to retrieve JNI functions."), s, [])

/-- Modelled from the spec: `cache::remove_active_jvm` (cache.rs is not among
the sources) decrements the process-wide active-handle counter and returns the
new value (spec §4.1: "on handle drop, decrement the counter; if it reaches
zero ..."). -/
def remove_active_jvm (s : LState) : Int × LState :=
  (s.active_jvms - 1, { s with active_jvms := s.active_jvms - 1 })

/-- `impl Drop for Jvm` (api.rs 1423-1432): decrement the counter; when it
reaches zero detach the current thread (unless detach-on-drop is disabled) and
clear the thread-local environment pointer. -/
def Jvm.drop (jvm : Jvm) (s : LState) : LState × List Event :=
  if (remove_active_jvm s).1 ≤ 0 then
    ({ (remove_active_jvm s).2 with thread_local_env := none },
     (if jvm.detach_thread_on_drop then [Event.detachedThread] else [])
       ++ [Event.clearedThreadLocalEnv])
  else ((remove_active_jvm s).2, [])

/-- Dropping a list of handles in order. -/
def Jvm.dropAll : List Jvm → LState → LState × List Event
  | [], s => (s, [])
  | j :: rest, s =>
      let p := Jvm.drop j s
      let q := Jvm.dropAll rest p.1
      (q.1, p.2 ++ q.2)

/-- `Jvm::create_jvm` (api.rs 93-170).  The whole body runs under the
process-wide `cache::MUTEX` lock (api.rs 99), delimited by the
`lockAcquired`/`lockReleased` events.  Branches, in source order: reuse the
thread-local environment if cached (api.rs 101-105); else attach to a VM
already created in this process (api.rs 107-113); else create a brand-new VM
with the given option strings (api.rs 114-141).  A non-`JNI_OK` status becomes
a `JavaError` (api.rs 146-157); otherwise the handle is built by
`Jvm::try_from` and, when a native-library name is given, the Java side is
initialized through an `invoke_static` call (api.rs 159-168, the outcome of
that call is abstracted by `World.initLibOk`; a failure makes the `?` operator
drop the freshly built handle and propagate the error).  The body is split
into `createBranch` (the three-way decision), `createPostTry` (the post-
`try_from` lines) and `Jvm.create_jvm` (the composition, adding the lock
bracket). -/
def createBranch (w : World) (jvm_options : List String) (s : LState) :
    Int × Nat × List Event :=
  match s.thread_local_env with
  | some env => (JNI_OK, env, [Event.reusedThreadLocalEnv])
  | none =>
    match w.createdVm with
    | some env => (JNI_OK, env, [Event.attachedToExistingVm])
    | none => (w.createVmStatus, w.newVmEnv, [Event.createdNewVm jvm_options])

/-- The lines of `create_jvm` after a successful `Jvm::try_from`
(api.rs 159-168), parameterized by the `try_from` outcome `r`: on an error,
propagate it; on success, when a native-library name is given, run the
`invoke_static` initialization call (its outcome abstracted by `initLibOk`) —
on its failure, the `?` operator drops the freshly built handle before
propagating the error. -/
def createPostTry (initLibOk : Bool) (lib_name_to_load : Option String)
    (r : Except J4RsError Jvm × LState × List Event) :
    Except J4RsError Jvm × LState × List Event :=
  match r.1 with
  | Except.error e => (Except.error e, r.2.1, r.2.2)
  | Except.ok jvm =>
    match lib_name_to_load with
    | none => (Except.ok jvm, r.2.1, r.2.2)
    | some libname =>
      if initLibOk then
        (Except.ok jvm, r.2.1, r.2.2 ++ [Event.nativeLibInit libname])
      else
        (Except.error (J4RsError.JavaError
           "An Exception was thrown by Java... Please check the logs or the console."),
         (Jvm.drop jvm r.2.1).1, r.2.2 ++ (Jvm.drop jvm r.2.1).2)

def Jvm.create_jvm (w : World) (jvm_options : List String)
    (lib_name_to_load : Option String) (s : LState) :
    Except J4RsError Jvm × LState × List Event :=
  let branch := createBranch w jvm_options s
  if branch.1 ≠ JNI_OK then
    (Except.error (J4RsError.JavaError
       ("Could not create the JVM: " ++ jniErrorMessage branch.1)),
     s, [Event.lockAcquired] ++ branch.2.2 ++ [Event.lockReleased])
  else
    let post := createPostTry w.initLibOk lib_name_to_load (Jvm.try_from w branch.2.1 s)
    (post.1, post.2.1,
     [Event.lockAcquired] ++ branch.2.2 ++ post.2.2 ++ [Event.lockReleased])

/-! ## The Invocation Engine and the Callback Channel Bridge -/

/-- The call-site label of a `create_global_ref_from_local_ref` /
`global_jobject_from_str` application: whether the promoted local reference is
the raw result of the proxy/factory call, the freshly built `InvocationArg[]`
array, or a name/class `jstring` argument. -/
inductive RefSrc where
  | callResult
  | argArray
  | nameString
  deriving DecidableEq

/-- Events observable during a single engine operation. -/
inductive OEvent where
  | jvmCalled
  | excChecked (pendingSeen : Bool)
  | excDescribed
  | excCleared
  | tookGlobalRef (src : RefSrc)
  | channelCalled (addr : Int)
  deriving DecidableEq

/-- The mutable world a single engine operation sees: the JVM's pending-
exception flag, the operation's event trace, and the native heap of boxed
channel senders (a list of live addresses plus a fresh-address counter). -/
structure OpState where
  pending : Bool
  events : List OEvent
  heap : List Nat
  nextAddr : Nat
  deriving DecidableEq

/-- The state-and-error monad in which the engine operations are written:
mirrors Rust's `?` operator (an error aborts the rest of the body but the
JNI-side state mutations already performed persist). -/
def JniM (α : Type) : Type := OpState → Except J4RsError α × OpState

def JniM.pure {α : Type} (a : α) : JniM α := fun s => (Except.ok a, s)

def JniM.bind {α β : Type} (m : JniM α) (f : α → JniM β) : JniM β := fun s =>
  match m s with
  | (Except.ok a, s1) => f a s1
  | (Except.error e, s1) => (Except.error e, s1)

instance : Monad JniM where
  pure := JniM.pure
  bind := JniM.bind

/-- Lift a pure `Except` computation (e.g. an `opt_to_res` cache read). -/
def JniM.liftE {α : Type} (r : Except J4RsError α) : JniM α := fun s => (r, s)

/-- `struct Instance` (api.rs 2060-2069): the declared class name plus the
durable JNI reference. -/
structure Instance where
  class_name : String
  jinstance : Nat
  deriving DecidableEq

/-- `enum InvocationArg` (api.rs 1646-1668).  The source field named
`instance` is called `inst` here (`instance` is reserved in Lean). -/
inductive InvocationArg where
  | Java (inst : Instance) (class_name : String) (serialized : Bool)
  | Rust (json : String) (class_name : String) (serialized : Bool)
  | RustBasic (inst : Instance) (class_name : String) (serialized : Bool)
  deriving DecidableEq

/-- Modelled from the spec: `utils::get_class_name` is called by `api.rs`
(line 1737) but is missing from the `utils.rs` at hand; it reads the
`class_name` field of whichever variant is active. -/
def InvocationArg.class_name : InvocationArg → String
  | InvocationArg.Java _ cn _ => cn
  | InvocationArg.Rust _ cn _ => cn
  | InvocationArg.RustBasic _ cn _ => cn

/-- The oracles an engine operation consults: the local reference produced by
the proxy/factory call, the `NewGlobalRef` promotion, and the Rust string read
out of a returned `jstring` (`jni_utils::jstring_to_rust_string`). -/
structure OpWorld where
  callResultRef : Nat
  globalRefOf : Nat → Nat
  jsonOf : Nat → String

/-- Record one event. -/
def emitO (e : OEvent) : JniM Unit :=
  fun s => (Except.ok (), { s with events := s.events ++ [e] })

/-- Modelled from the spec: `jni_utils::global_jobject_from_str` (jni_utils.rs
is not among the sources) builds a `jstring` for a name argument and promotes
it to a durable reference; the reference identity of name strings is not
tracked by the model. -/
def global_jobject_from_str (_w : OpWorld) (_s : String) : JniM Nat :=
  fun st =>
    (Except.ok 0, { st with events := st.events ++ [OEvent.tookGlobalRef RefSrc.nameString] })

/-- Modelled from the spec: `jni_utils::create_global_ref_from_local_ref`
(jni_utils.rs is not among the sources) promotes a local reference to a
durable (global) one; `src` labels the call site. -/
def create_global_ref_from_local_ref (w : OpWorld) (src : RefSrc) (localRef : Nat) :
    JniM Nat :=
  fun s =>
    (Except.ok (w.globalRefOf localRef), { s with events := s.events ++ [OEvent.tookGlobalRef src] })

/-- Modelled from the spec: `jni_utils::delete_java_ref` (jni_utils.rs is not
among the sources) releases a reference; reference-table bookkeeping is not
tracked by the model. -/
def delete_java_ref (_r : Nat) : JniM Unit := JniM.pure ()

/-- Modelled from the spec: `jni_utils::invocation_arg_jobject_from_java` /
`_from_rust_serialized` / `_from_rust_basic` (jni_utils.rs is not among the
sources), dispatched by `InvocationArg::as_java_ptr` (api.rs 1752-1758):
builds the Java-side DTO (a local reference) for one argument. -/
def InvocationArg.as_java_ptr (_a : InvocationArg) : JniM Nat := JniM.pure 0

/-- The `for i in 0..size` marshalling loop shared by the engine operations
(e.g. api.rs 733-744): each `InvocationArg` is turned into a Java object and
stored in the argument array. -/
def marshalArgs : List InvocationArg → JniM (List Nat)
  | [] => JniM.pure []
  | a :: rest => do
      let j ← a.as_java_ptr
      let js ← marshalArgs rest
      pure (j :: js)

/-- The `NewObjectArray` allocation of the `InvocationArg[]` argument array,
promoted to a global reference (e.g. api.rs 721-729): requires the cached
`InvocationArg` class. -/
def newInvArgArray (w : OpWorld) (E : Entries) (_len : Nat) : JniM Nat := do
  let _ ← JniM.liftE (opt_to_res (E CEntry.invocation_arg_class))
  create_global_ref_from_local_ref w RefSrc.argArray 0

/-- A call into the JVM: if the JVM-side target throws, the pending-exception
flag is raised; the call returns its raw local-reference result. -/
def rawJvmCall (throws : Bool) (res : Nat) : JniM Nat :=
  fun s =>
    (Except.ok res,
     { s with pending := s.pending || throws, events := s.events ++ [OEvent.jvmCalled] })

/-- `CallStaticObjectMethod` on a cached class/method pair (requires both
cache cells, read through `opt_to_res`). -/
def callStaticObjectMethod (E : Entries) (ce me : CEntry) (throws : Bool) (w : OpWorld) :
    JniM Nat := do
  let _ ← JniM.liftE (opt_to_res (E ce))
  let _ ← JniM.liftE (opt_to_res (E me))
  rawJvmCall throws w.callResultRef

/-- `CallObjectMethod` on an existing instance with a cached method id. -/
def callObjectMethod (E : Entries) (me : CEntry) (throws : Bool) (w : OpWorld) :
    JniM Nat := do
  let _ ← JniM.liftE (opt_to_res (E me))
  rawJvmCall throws w.callResultRef

/-- The raw void JVM call of the channel bridge, carrying the channel address
as its `long` argument: may raise the pending-exception flag. -/
def rawVoidChannelCall (addr : Int) (throws : Bool) : JniM Unit :=
  fun s =>
    (Except.ok (),
     { s with pending := s.pending || throws,
              events := s.events ++ [OEvent.channelCalled addr] })

/-- `CallVoidMethod` carrying a channel address as its first argument
(`invokeToChannel` / `initializeCallbackChannel`). -/
def callVoidChannelMethod (E : Entries) (me : CEntry) (addr : Int) (throws : Bool) :
    JniM Unit := do
  let _ ← JniM.liftE (opt_to_res (E me))
  rawVoidChannelCall addr throws

/-- The message of the `JavaError` produced when a pending exception is
observed (api.rs 1347). -/
def exThrownMsg : String :=
  "An Exception was thrown by Java... Please check the logs or the console."

/-- `Jvm::do_return` (api.rs 1342-1352): `ExceptionCheck`; when positive,
`ExceptionDescribe` + `ExceptionClear` and a `JavaError`; otherwise the value
is passed through. -/
def do_return {α : Type} (t : α) : JniM α :=
  fun s =>
    if s.pending then
      (Except.error (J4RsError.JavaError exThrownMsg),
       { s with pending := false,
                events := s.events
                  ++ [OEvent.excChecked true, OEvent.excDescribed, OEvent.excCleared] })
    else
      (Except.ok t, { s with events := s.events ++ [OEvent.excChecked false] })

/-- `Instance::from` (api.rs 2089-2099): promote the object to a global
reference and wrap it with the `UNKNOWN_FOR_RUST` sentinel class name. -/
def Instance.fromObj (w : OpWorld) (obj : Nat) : JniM Instance := do
  let g ← create_global_ref_from_local_ref w RefSrc.callResult obj
  pure { class_name := UNKNOWN_FOR_RUST, jinstance := g }

/-- `Jvm::create_instance` (api.rs 713-772): marshal the class name and the
arguments, call the factory's `instantiate`, check for a pending exception
(api.rs 756), promote the raw result, release the temporaries, and wrap the
result with the caller-requested class name. -/
def Jvm.create_instance (E : Entries) (w : OpWorld) (class_name : String)
    (inv_args : List InvocationArg) (throws : Bool) : JniM Instance := do
  let cns ← global_jobject_from_str w class_name
  let arr ← newInvArgArray w E inv_args.length
  let _objs ← marshalArgs inv_args
  let res ← callStaticObjectMethod E CEntry.factory_class CEntry.factory_instantiate_method
              throws w
  let _ ← do_return ()
  let g ← create_global_ref_from_local_ref w RefSrc.callResult res
  let _ ← delete_java_ref arr
  let _ ← delete_java_ref cns
  do_return { class_name := class_name, jinstance := g }

/-- `Jvm::create_java_array` (api.rs 800-859): same shape as
`create_instance`, through the factory's `createJavaArray`. -/
def Jvm.create_java_array (E : Entries) (w : OpWorld) (class_name : String)
    (inv_args : List InvocationArg) (throws : Bool) : JniM Instance := do
  let cns ← global_jobject_from_str w class_name
  let arr ← newInvArgArray w E inv_args.length
  let _objs ← marshalArgs inv_args
  let res ← callStaticObjectMethod E CEntry.factory_class
              CEntry.factory_create_java_array_method throws w
  let _ ← do_return ()
  let g ← create_global_ref_from_local_ref w RefSrc.callResult res
  let _ ← delete_java_ref arr
  let _ ← delete_java_ref cns
  do_return { class_name := class_name, jinstance := g }

/-- `Jvm::do_create_java_list` (api.rs 868-927), reached from
`Jvm::create_java_list`: same shape, through the factory's `createJavaList`. -/
def Jvm.create_java_list (E : Entries) (w : OpWorld) (class_name : String)
    (inv_args : List InvocationArg) (throws : Bool) : JniM Instance := do
  let cns ← global_jobject_from_str w class_name
  let arr ← newInvArgArray w E inv_args.length
  let _objs ← marshalArgs inv_args
  let res ← callStaticObjectMethod E CEntry.factory_class
              CEntry.factory_create_java_list_method throws w
  let _ ← do_return ()
  let g ← create_global_ref_from_local_ref w RefSrc.callResult res
  let _ ← delete_java_ref arr
  let _ ← delete_java_ref cns
  do_return { class_name := class_name, jinstance := g }

/-- `Jvm::invoke` (api.rs 930-989): marshal, call the proxy's `invoke`, check
for a pending exception (api.rs 973), promote the raw result, and wrap it with
the `UNKNOWN_FOR_RUST` class name (api.rs 984-987). -/
def Jvm.invoke (E : Entries) (w : OpWorld) (inst : Instance) (method_name : String)
    (inv_args : List InvocationArg) (throws : Bool) : JniM Instance := do
  let mns ← global_jobject_from_str w method_name
  let arr ← newInvArgArray w E inv_args.length
  let _objs ← marshalArgs inv_args
  let _ := inst.jinstance
  let res ← callObjectMethod E CEntry.invoke_method throws w
  let _ ← do_return ()
  let g ← create_global_ref_from_local_ref w RefSrc.callResult res
  let _ ← delete_java_ref arr
  let _ ← delete_java_ref mns
  do_return { class_name := UNKNOWN_FOR_RUST, jinstance := g }

/-- `Jvm::field` (api.rs 992-1019): call the proxy's `field`, check
(api.rs 1007), promote, wrap with `UNKNOWN_FOR_RUST`. -/
def Jvm.field (E : Entries) (w : OpWorld) (inst : Instance) (field_name : String)
    (throws : Bool) : JniM Instance := do
  let fns ← global_jobject_from_str w field_name
  let _ := inst.jinstance
  let res ← callObjectMethod E CEntry.field_method throws w
  let _ ← do_return ()
  let g ← create_global_ref_from_local_ref w RefSrc.callResult res
  let _ ← delete_java_ref fns
  do_return { class_name := UNKNOWN_FOR_RUST, jinstance := g }

/-- `Jvm::invoke_static` (api.rs 1116-1181): obtain a static proxy through the
factory's `createForStatic` (first JVM call), marshal, call the proxy's
`invokeStatic` (second JVM call), check for a pending exception (api.rs 1169),
release the temporaries, then wrap through `Instance::from` (api.rs 1179). -/
def Jvm.invoke_static (E : Entries) (w : OpWorld) (class_name method_name : String)
    (inv_args : List InvocationArg) (throwsFactory throwsCall : Bool) : JniM Instance := do
  let cns ← global_jobject_from_str w class_name
  let _proxy ← callStaticObjectMethod E CEntry.factory_class
                 CEntry.factory_create_for_static_method throwsFactory w
  let mns ← global_jobject_from_str w method_name
  let arr ← newInvArgArray w E inv_args.length
  let _objs ← marshalArgs inv_args
  let res ← callObjectMethod E CEntry.invoke_static_method throwsCall w
  let _ ← do_return ()
  let _ ← delete_java_ref arr
  let _ ← delete_java_ref mns
  let _ ← delete_java_ref cns
  let inst ← Instance.fromObj w res
  do_return inst

/-- `Jvm::cast` (api.rs 1200-1225): call the static `cast`, check for a
pending exception (api.rs 1217), release the class-name string, then wrap
through `Instance::from` (api.rs 1223). -/
def Jvm.cast (E : Entries) (w : OpWorld) (from_instance : Instance) (to_class : String)
    (throws : Bool) : JniM Instance := do
  let tcs ← global_jobject_from_str w to_class
  let _ := from_instance.jinstance
  let res ← callStaticObjectMethod E CEntry.class_to_invoke_clone_and_cast
              CEntry.cast_static_method throws w
  let _ ← do_return ()
  let _ ← delete_java_ref tcs
  let inst ← Instance.fromObj w res
  do_return inst

/-- `Jvm::clone_instance` (api.rs 1184-1197): call the static `cloneInstance`
and return `do_return(env, Instance::from(result)?)` — the `Instance::from`
argument (which promotes the raw result to a durable reference) is evaluated
before `do_return` performs its exception check. -/
def Jvm.clone_instance (E : Entries) (w : OpWorld) (inst : Instance) (throws : Bool) :
    JniM Instance := do
  let _ := inst.jinstance
  let res ← callStaticObjectMethod E CEntry.class_to_invoke_clone_and_cast
              CEntry.clone_static_method throws w
  let inst2 ← Instance.fromObj w res
  do_return inst2

/-- `Jvm::to_rust` (api.rs 1228-1244): call the proxy's `getJson`, check for a
pending exception (api.rs 1237), promote the returned `jstring`, read it into
a Rust string, release it, deserialize (`serde_json::from_str`, abstracted by
the caller-supplied `parse`), and pass the value through a final check. -/
def Jvm.to_rust {α : Type} (E : Entries) (w : OpWorld) (inst : Instance)
    (parse : String → Except J4RsError α) (throws : Bool) : JniM α := do
  let _ := inst.jinstance
  let json_instance ← callObjectMethod E CEntry.get_json_method throws w
  let _ ← do_return ""
  let g ← create_global_ref_from_local_ref w RefSrc.callResult json_instance
  let json := w.jsonOf g
  let _ ← delete_java_ref g
  let v ← JniM.liftE (parse json)
  do_return v

/-- `i64::from_str_radix(&format!("{:p}", raw_ptr)[2..], 16).unwrap()`
(api.rs 1032-1033): printing a heap address in hex and parsing it back is the
identity on the address value (the parse is within `i64` range for any
user-space address). -/
def addrToI64 (a : Nat) : Int := (a : Int)

/-- `struct InstanceReceiver` (api.rs 2030-2046): the receiving half of the
channel (identified here by the channel's address) plus the stored sender
address. -/
structure InstanceReceiver where
  rx : Nat
  tx_address : Int
  deriving DecidableEq

/-- `InstanceReceiver::new` (api.rs 2036-2041). -/
def InstanceReceiver.new (addr : Nat) : InstanceReceiver :=
  { rx := addr, tx_address := addrToI64 addr }

/-- The channel allocation and `Box::into_raw(Box::new(sender))` of
`invoke_to_channel` / `init_callback_channel` (api.rs 1026-1033, 1093-1100):
a fresh heap address is handed out and recorded as live. -/
def allocSender : JniM Nat :=
  fun s =>
    (Except.ok s.nextAddr,
     { s with heap := s.heap ++ [s.nextAddr], nextAddr := s.nextAddr + 1 })

/-- `Jvm::invoke_to_channel` (api.rs 1023-1088): allocate the channel and box
the sender, marshal method name and arguments, call the proxy's
`invokeToChannel` with the sender's heap address as the `long` first argument,
check for a pending exception (api.rs 1076), release the temporaries, and
return an `InstanceReceiver` storing that same address. -/
def Jvm.invoke_to_channel (E : Entries) (w : OpWorld) (inst : Instance)
    (method_name : String) (inv_args : List InvocationArg) (throws : Bool) :
    JniM InstanceReceiver := do
  let address ← allocSender
  let mns ← global_jobject_from_str w method_name
  let arr ← newInvArgArray w E inv_args.length
  let _objs ← marshalArgs inv_args
  let _ := inst.jinstance
  let _ ← callVoidChannelMethod E CEntry.invoke_to_channel_method (addrToI64 address) throws
  let _ ← do_return ()
  let _ ← delete_java_ref arr
  let _ ← delete_java_ref mns
  do_return (InstanceReceiver.new address)

/-- `Jvm::init_callback_channel` (api.rs 1090-1113): allocate the channel and
box the sender, call the proxy's `initializeCallbackChannel` with the sender's
heap address, and return the receiver through `do_return`. -/
def Jvm.init_callback_channel (E : Entries) (_w : OpWorld) (inst : Instance)
    (throws : Bool) : JniM InstanceReceiver := do
  let address ← allocSender
  let _ := inst.jinstance
  let _ ← callVoidChannelMethod E CEntry.init_callback_channel_method (addrToI64 address) throws
  do_return (InstanceReceiver.new address)

/-! ## The Argument Marshaler: constructing InvocationArgs from Rust values -/

/-- The closed set of native values handled by `InvocationArg::new_2`
(api.rs 1683-1725).  The source's `&dyn Any` downcast chain handles
`String`, `i8`, `i16`, `i32` and `i64` specially; every other
`Serialize + Any` value falls through to the `serde_json::to_string` branch.
`vF32`/`vF64` carry the (always successful) JSON rendering of the float;
`vOther` stands for any other serializable value and carries the outcome of
its serialization — `serde_json::to_string` is fallible (for example for a
map with non-string keys), which the source acknowledges with its `?`
operator on line 1718. -/
inductive RustValue where
  | vString (s : String)
  | vI8 (i : Int)
  | vI16 (i : Int)
  | vI32 (i : Int)
  | vI64 (i : Int)
  | vBool (b : Bool)
  | vChar (c : Char)
  | vF32 (json : String)
  | vF64 (json : String)
  | vUnit
  | vOther (ser : Option String)
  deriving DecidableEq

/-- The `serde_json::to_string(arg)` call of `InvocationArg::new_2`'s fallback
branch (api.rs 1718), specialized to the modelled value set. -/
def serde_json_to_string : RustValue → Option String
  | RustValue.vString s => some ("\"" ++ s ++ "\"")
  | RustValue.vI8 i => some (toString i)
  | RustValue.vI16 i => some (toString i)
  | RustValue.vI32 i => some (toString i)
  | RustValue.vI64 i => some (toString i)
  | RustValue.vBool b => some (if b then "true" else "false")
  | RustValue.vChar c => some ("\"" ++ String.mk [c] ++ "\"")
  | RustValue.vF32 j => some j
  | RustValue.vF64 j => some j
  | RustValue.vUnit => some "null"
  | RustValue.vOther o => o

/-- Modelled from the spec: the `jni_utils::global_jobject_from_str` /
`_from_i8` / `_from_i16` / `_from_i32` / `_from_i64` boxing helpers called by
`InvocationArg::new_2` (jni_utils.rs is not among the sources): each produces
a durable reference to a freshly boxed basic value; reference identity is not
tracked by the model. -/
def global_jobject_from_basic (_v : RustValue) (_jni_env : Nat) : Nat := 0

/-- `InvocationArg::new_2` (api.rs 1683-1725): the `&dyn Any` downcast chain —
`String`, `i8`, `i16`, `i32`, `i64` become `RustBasic` args wrapping a
JNI-boxed value; everything else is JSON-serialized into a `Rust` arg (or
fails with the serialization error). -/
def InvocationArg.new_2 (arg : RustValue) (class_name : String) (jni_env : Nat) :
    Except J4RsError InvocationArg :=
  match arg with
  | RustValue.vString _ =>
      Except.ok (InvocationArg.RustBasic
        { class_name := class_name, jinstance := global_jobject_from_basic arg jni_env }
        class_name false)
  | RustValue.vI8 _ =>
      Except.ok (InvocationArg.RustBasic
        { class_name := class_name, jinstance := global_jobject_from_basic arg jni_env }
        class_name false)
  | RustValue.vI16 _ =>
      Except.ok (InvocationArg.RustBasic
        { class_name := class_name, jinstance := global_jobject_from_basic arg jni_env }
        class_name false)
  | RustValue.vI32 _ =>
      Except.ok (InvocationArg.RustBasic
        { class_name := class_name, jinstance := global_jobject_from_basic arg jni_env }
        class_name false)
  | RustValue.vI64 _ =>
      Except.ok (InvocationArg.RustBasic
        { class_name := class_name, jinstance := global_jobject_from_basic arg jni_env }
        class_name false)
  | _ =>
      match serde_json_to_string arg with
      | some json => Except.ok (InvocationArg.Rust json class_name true)
      | none => Except.error (J4RsError.ParseError "JSON serialization error")

/-- Modelled from the spec: `cache::get_thread_local_env` (cache.rs is not
among the sources) returns the calling thread's cached environment pointer or
an error when none exists (spec §7: callers are expected to have a VM handle
alive). -/
def get_thread_local_env (tle : Option Nat) : Except J4RsError Nat :=
  opt_to_res tle

/-- `InvocationArg::new` (api.rs 1670-1681): two `expect` calls — one on
`cache::get_thread_local_env()` and one on the `new_2` result.  A panic is
modelled as `none`. -/
def InvocationArg.new (arg : RustValue) (class_name : String) (tle : Option Nat) :
    Option InvocationArg :=
  match tle with
  | none => none
  | some env =>
    match InvocationArg.new_2 arg class_name env with
    | Except.ok ia => some ia
    | Except.error _ => none

/-- `impl TryFrom<String> for InvocationArg` (api.rs 1782-1787). -/
def InvocationArg.try_from_string (arg : String) (tle : Option Nat) :
    Except J4RsError InvocationArg := do
  let env ← get_thread_local_env tle
  InvocationArg.new_2 (RustValue.vString arg) "java.lang.String" env

/-- `impl TryFrom<&str> for InvocationArg` (api.rs 1798-1803): same as the
owned-string conversion after `to_string()`. -/
def InvocationArg.try_from_str (arg : String) (tle : Option Nat) :
    Except J4RsError InvocationArg := do
  let env ← get_thread_local_env tle
  InvocationArg.new_2 (RustValue.vString arg) "java.lang.String" env

/-- `impl TryFrom<bool> for InvocationArg` (api.rs 1814-1819). -/
def InvocationArg.try_from_bool (arg : Bool) (tle : Option Nat) :
    Except J4RsError InvocationArg := do
  let env ← get_thread_local_env tle
  InvocationArg.new_2 (RustValue.vBool arg) "java.lang.Boolean" env

/-- `impl TryFrom<i8> for InvocationArg` (api.rs 1830-1835). -/
def InvocationArg.try_from_i8 (arg : Int) (tle : Option Nat) :
    Except J4RsError InvocationArg := do
  let env ← get_thread_local_env tle
  InvocationArg.new_2 (RustValue.vI8 arg) "java.lang.Byte" env

/-- `impl TryFrom<char> for InvocationArg` (api.rs 1846-1851). -/
def InvocationArg.try_from_char (arg : Char) (tle : Option Nat) :
    Except J4RsError InvocationArg := do
  let env ← get_thread_local_env tle
  InvocationArg.new_2 (RustValue.vChar arg) "java.lang.Character" env

/-- `impl TryFrom<i16> for InvocationArg` (api.rs 1862-1867). -/
def InvocationArg.try_from_i16 (arg : Int) (tle : Option Nat) :
    Except J4RsError InvocationArg := do
  let env ← get_thread_local_env tle
  InvocationArg.new_2 (RustValue.vI16 arg) "java.lang.Short" env

/-- `impl TryFrom<i32> for InvocationArg` (api.rs 1878-1883). -/
def InvocationArg.try_from_i32 (arg : Int) (tle : Option Nat) :
    Except J4RsError InvocationArg := do
  let env ← get_thread_local_env tle
  InvocationArg.new_2 (RustValue.vI32 arg) "java.lang.Integer" env

/-- `impl TryFrom<i64> for InvocationArg` (api.rs 1894-1899). -/
def InvocationArg.try_from_i64 (arg : Int) (tle : Option Nat) :
    Except J4RsError InvocationArg := do
  let env ← get_thread_local_env tle
  InvocationArg.new_2 (RustValue.vI64 arg) "java.lang.Long" env

/-- `impl TryFrom<f32> for InvocationArg` (api.rs 1910-1915). -/
def InvocationArg.try_from_f32 (argJson : String) (tle : Option Nat) :
    Except J4RsError InvocationArg := do
  let env ← get_thread_local_env tle
  InvocationArg.new_2 (RustValue.vF32 argJson) "java.lang.Float" env

/-- `impl TryFrom<f64> for InvocationArg` (api.rs 1926-1931). -/
def InvocationArg.try_from_f64 (argJson : String) (tle : Option Nat) :
    Except J4RsError InvocationArg := do
  let env ← get_thread_local_env tle
  InvocationArg.new_2 (RustValue.vF64 argJson) "java.lang.Double" env

/-- `impl TryFrom<()> for InvocationArg` (api.rs 1953-1958). -/
def InvocationArg.try_from_unit (tle : Option Nat) :
    Except J4RsError InvocationArg := do
  let env ← get_thread_local_env tle
  InvocationArg.new_2 RustValue.vUnit "void" env

/-- Modelled from the spec: `utils::primitive_of` is called by `api.rs`
(line 1728) but is missing from the `utils.rs` at hand.  Per spec §4.3 and §8:
a boxed-to-primitive mapping is defined for every boxed-numeric class,
`java.lang.Boolean`, `java.lang.Character` and `void`
(e.g. "java.lang.Integer" → "int"); no mapping exists otherwise — in
particular not for "java.lang.String". -/
def primitive_of (class_name : String) : Option String :=
  if class_name = "java.lang.Boolean" then some "boolean"
  else if class_name = "java.lang.Byte" then some "byte"
  else if class_name = "java.lang.Short" then some "short"
  else if class_name = "java.lang.Integer" then some "int"
  else if class_name = "java.lang.Long" then some "long"
  else if class_name = "java.lang.Float" then some "float"
  else if class_name = "java.lang.Double" then some "double"
  else if class_name = "java.lang.Character" then some "char"
  else if class_name = "void" then some "void"
  else none

/-- `InvocationArg::make_primitive` (api.rs 1727-1739): when a primitive
mapping exists for the current class name, rewrite the class name in whichever
variant is active; otherwise fail with a descriptive `JavaError`. -/
def InvocationArg.make_primitive (a : InvocationArg) : Except J4RsError InvocationArg :=
  match primitive_of a.class_name with
  | some primitive_repr =>
      Except.ok (match a with
        | InvocationArg.Java i _ sz => InvocationArg.Java i primitive_repr sz
        | InvocationArg.Rust j _ sz => InvocationArg.Rust j primitive_repr sz
        | InvocationArg.RustBasic i _ sz => InvocationArg.RustBasic i primitive_repr sz)
  | none =>
      Except.error (J4RsError.JavaError ("Cannot transform to primitive: " ++ a.class_name))

/-- `InvocationArg::into_primitive` (api.rs 1745-1749): the consuming wrapper
around `make_primitive`. -/
def InvocationArg.into_primitive (a : InvocationArg) : Except J4RsError InvocationArg :=
  a.make_primitive

/-- `impl Drop for InstanceReceiver` (api.rs 2048-2057): rebuild the boxed
sender from the stored address (`Box::from_raw`) and free it — the address is
removed from the live heap. -/
def InstanceReceiver.dropReceiver (r : InstanceReceiver) (s : OpState) : OpState :=
  { s with heap := s.heap.erase r.tx_address.toNat }

/-! ## Concrete fixtures used by witnesses and counterexamples -/

/-- A concrete JVM world: all JNI function pointers present, no pending
exception at bring-up, no VM created yet, creation succeeds. -/
def testWorld : World :=
  { gmidPresent := true
  , gsmidPresent := true
  , ecPresent := true
  , edPresent := true
  , exclearPresent := true
  , findClass := fun _ => 1
  , getMethodId := fun _ _ _ => 2
  , getStaticMethodId := fun _ _ _ => 3
  , globalRefOf := fun n => n + 100
  , pendingAfterBringup := false
  , createdVm := none
  , createVmStatus := JNI_OK
  , newVmEnv := 5
  , initLibOk := true }

/-- A concrete JVM world in which the native create-VM call fails with
`JNI_ENOMEM`. -/
def failWorld : World :=
  { testWorld with createVmStatus := JNI_ENOMEM }

/-- The process state before any bring-up: empty cache, no thread-local
environment, zero active handles. -/
def emptyLState : LState :=
  { entries := fun _ => none, thread_local_env := none, active_jvms := 0 }

/-- A fully populated Reference Cache (every cell holds the id 1). -/
def testEntries : Entries := fun _ => some 1

/-- A concrete operation world. -/
def testOpWorld : OpWorld :=
  { callResultRef := 9, globalRefOf := fun n => n + 100, jsonOf := fun _ => "3" }

/-- A clean operation state: no pending exception, empty trace, empty heap. -/
def cleanOpState : OpState :=
  { pending := false, events := [], heap := [], nextAddr := 11 }

/-- A concrete Instance. -/
def testInstance : Instance := { class_name := "a.B", jinstance := 4 }

/-- A process state with two live handles on thread-local environment 5. -/
def twoState : LState :=
  { entries := testEntries, thread_local_env := some 5, active_jvms := 2 }

/-- A process state with one live handle on thread-local environment 5. -/
def oneState : LState :=
  { entries := testEntries, thread_local_env := some 5, active_jvms := 1 }

/-- `true` exactly for the three branch-decision events of `create_jvm`. -/
def Event.isBranchDecision : Event → Bool
  | Event.reusedThreadLocalEnv => true
  | Event.attachedToExistingVm => true
  | Event.createdNewVm _ => true
  | _ => false

/-- The Reference Cache is fully populated: every entry holds a value. -/
def Entries.populatedB (E : Entries) : Bool :=
  resolutionOrder.all (fun e => (E e).isSome)

/-- The exception-boundary contract of one engine operation `op`
(parameterized by whether its JVM-side target throws), run from state `s`:
a throwing target yields the `JavaError`, with the pending exception
described and cleared — so no pending exception persists — and a
non-throwing target yields `Ok`, also leaving no pending exception. -/
def clearsExceptions {α : Type} (op : Bool → JniM α) (s : OpState) : Prop :=
  ((op true s).1 = Except.error (J4RsError.JavaError exThrownMsg)) ∧
  ((op true s).2.pending = false) ∧
  (OEvent.excDescribed ∈ (op true s).2.events) ∧
  (OEvent.excCleared ∈ (op true s).2.events) ∧
  (∃ out, (op false s).1 = Except.ok out) ∧
  ((op false s).2.pending = false)

/-! ## Helper lemmas about cache resolution -/

/-- A get-or-resolve step never disturbs an already-populated cell. -/
theorem resolveEntry_preserve (w : World) (c : Entries) (x e : CEntry) (v : Nat)
    (h : c e = some v) : (resolveEntry w c x).1 e = some v := by
  unfold resolveEntry
  cases hx : c x with
  | some w' => exact h
  | none =>
    have hex : e ≠ x := by
      intro he
      rw [he, hx] at h
      exact Option.noConfusion h
    cases entrySpec x <;> simp [Entries.set, hex, h]

/-- A get-or-resolve step leaves its own cell populated. -/
theorem resolveEntry_isSome_self (w : World) (c : Entries) (e : CEntry) :
    ((resolveEntry w c e).1 e).isSome = true := by
  unfold resolveEntry
  cases hx : c e with
  | some v => simp [hx]
  | none => cases entrySpec e <;> simp [Entries.set]

/-- A get-or-resolve step on a populated cell is a pure read: no state change,
no event. -/
theorem resolveEntry_cached (w : World) (c : Entries) (e : CEntry)
    (h : (c e).isSome = true) : resolveEntry w c e = (c, []) := by
  unfold resolveEntry
  cases hx : c e with
  | some v => rfl
  | none => rw [hx] at h; simp at h

/-- Every event of a get-or-resolve step is a resolution event. -/
theorem resolveEntry_events (w : World) (c : Entries) (x : CEntry) :
    ∀ ev ∈ (resolveEntry w c x).2, ev.isResolution = true := by
  unfold resolveEntry
  cases hx : c x with
  | some v => simp
  | none => cases entrySpec x <;> simp [Event.isResolution]

/-- The resolution pass never disturbs an already-populated cell. -/
theorem resolveAll_preserve (w : World) (l : List CEntry) :
    ∀ (c : Entries) (e : CEntry) (v : Nat),
      c e = some v → (resolveAll w c l).1 e = some v := by
  induction l with
  | nil => intro c e v h; exact h
  | cons x rest ih =>
    intro c e v h
    simp only [resolveAll]
    exact ih _ _ _ (resolveEntry_preserve w c x e v h)

/-- After the resolution pass, every traversed cell is populated. -/
theorem resolveAll_isSome (w : World) (l : List CEntry) :
    ∀ (c : Entries) (e : CEntry), e ∈ l → ((resolveAll w c l).1 e).isSome = true := by
  induction l with
  | nil => intro c e h; cases h
  | cons x rest ih =>
    intro c e h
    rcases List.mem_cons.mp h with he | he
    · subst he
      obtain ⟨v, hv⟩ := Option.isSome_iff_exists.mp (resolveEntry_isSome_self w c e)
      simp only [resolveAll]
      exact Option.isSome_iff_exists.mpr ⟨v, resolveAll_preserve w rest _ _ _ hv⟩
    · simp only [resolveAll]
      exact ih _ _ he

/-- The resolution pass over fully populated cells is a pure read: no state
change, no events. -/
theorem resolveAll_cached (w : World) (l : List CEntry) :
    ∀ (c : Entries), (∀ e ∈ l, (c e).isSome = true) → resolveAll w c l = (c, []) := by
  induction l with
  | nil => intro c _; rfl
  | cons x rest ih =>
    intro c h
    have hx := h x (List.mem_cons_self x rest)
    simp only [resolveAll, resolveEntry_cached w c x hx]
    rw [ih c (fun e he => h e (List.mem_cons_of_mem x he))]
    rfl

/-- Every event of the resolution pass is a resolution event. -/
theorem resolveAll_events (w : World) (l : List CEntry) :
    ∀ (c : Entries), ∀ ev ∈ (resolveAll w c l).2, ev.isResolution = true := by
  induction l with
  | nil => intro c ev h; cases h
  | cons x rest ih =>
    intro c ev h
    simp only [resolveAll] at h
    rcases List.mem_append.mp h with h1 | h2
    · exact resolveEntry_events w c x ev h1
    · exact ih _ ev h2

/-- Every cache entry appears in the bring-up resolution sequence. -/
theorem mem_resolutionOrder (e : CEntry) : e ∈ resolutionOrder := by
  cases e <;> simp [resolutionOrder]

/-- The bring-up tail stores the resolution pass's cache, whether or not it
then fails on a pending exception. -/
theorem tryFromTail_entries (w : World) (env : Nat) (s : LState)
    (p : Entries × List Event) :
    (tryFromTail w env s p).2.1.entries = p.1 := by
  unfold tryFromTail
  cases hp : w.pendingAfterBringup
  · rfl
  · rfl

/-- With the JNI function pointers present, `try_from` is the bring-up tail
applied to the resolution pass. -/
theorem try_from_eq (w : World) (env : Nat) (s : LState)
    (hf : w.jniFnsPresent = true) :
    Jvm.try_from w env s
      = tryFromTail w env s (resolveAll w s.entries resolutionOrder) := by
  unfold Jvm.try_from
  rw [if_pos hf]

/-- With the JNI function pointers present, `try_from` stores the result of
the resolution pass as the new cache, whether or not bring-up then fails on a
pending exception. -/
theorem try_from_entries_eq (w : World) (env : Nat) (s : LState)
    (hf : w.jniFnsPresent = true) :
    (Jvm.try_from w env s).2.1.entries = (resolveAll w s.entries resolutionOrder).1 := by
  rw [try_from_eq w env s hf, tryFromTail_entries]

/-- Each event of the bring-up tail is either an event of the resolution pass
or an exception-describe/clear event. -/
theorem tryFromTail_events (w : World) (env : Nat) (s : LState)
    (p : Entries × List Event) :
    ∀ ev ∈ (tryFromTail w env s p).2.2,
      ev ∈ p.2 ∨ ev = Event.excDescribed ∨ ev = Event.excCleared := by
  unfold tryFromTail
  cases hp : w.pendingAfterBringup
  · intro ev h
    simp only [Bool.false_eq_true, if_false] at h
    exact Or.inl h
  · intro ev h
    simp only [if_true] at h
    rcases List.mem_append.mp h with h1 | h2
    · exact Or.inl h1
    · simp only [List.mem_cons, List.mem_singleton] at h2
      rcases h2 with h2 | h2
      · exact Or.inr (Or.inl h2)
      · rcases h2 with h2 | h2
        · exact Or.inr (Or.inr h2)
        · cases h2

/-- Every event of `try_from` is a resolution event or an exception
describe/clear event. -/
theorem try_from_events_shape (w : World) (env : Nat) (s : LState) :
    ∀ ev ∈ (Jvm.try_from w env s).2.2,
      ev.isResolution = true ∨ ev = Event.excDescribed ∨ ev = Event.excCleared := by
  intro ev h
  cases hfp : w.jniFnsPresent
  · unfold Jvm.try_from at h
    rw [if_neg (by simp [hfp])] at h
    cases h
  · rw [try_from_eq w env s hfp] at h
    rcases tryFromTail_events w env s _ ev h with h1 | h1 | h1
    · exact Or.inl (resolveAll_events w resolutionOrder s.entries ev h1)
    · exact Or.inr (Or.inl h1)
    · exact Or.inr (Or.inr h1)

/-- Every event of a handle drop is a detach or a clear event. -/
theorem drop_events (jvm : Jvm) (s : LState) :
    ∀ ev ∈ (Jvm.drop jvm s).2,
      ev = Event.detachedThread ∨ ev = Event.clearedThreadLocalEnv := by
  intro ev h
  unfold Jvm.drop at h
  by_cases hn : (remove_active_jvm s).1 ≤ 0
  · rw [if_pos hn] at h
    by_cases hd : jvm.detach_thread_on_drop
    · rw [if_pos hd] at h
      rcases List.mem_cons.mp h with h1 | h1
      · exact Or.inl h1
      · have h2 : ev ∈ [Event.clearedThreadLocalEnv] := h1
        simp only [List.mem_singleton] at h2
        exact Or.inr h2
    · rw [if_neg hd] at h
      simp only [List.nil_append, List.mem_singleton] at h
      exact Or.inr h
  · rw [if_neg hn] at h
    cases h

/-- Every event of the post-`try_from` phase is an event of `try_from`, a
native-library initialization event, or a drop event. -/
theorem createPostTry_events (i : Bool) (lib : Option String)
    (r : Except J4RsError Jvm × LState × List Event) :
    ∀ ev ∈ (createPostTry i lib r).2.2,
      ev ∈ r.2.2 ∨ (∃ l, ev = Event.nativeLibInit l)
        ∨ ev = Event.detachedThread ∨ ev = Event.clearedThreadLocalEnv := by
  obtain ⟨r1, rs, revs⟩ := r
  cases r1 with
  | error e => intro ev h; exact Or.inl h
  | ok jvm =>
    cases lib with
    | none => intro ev h; exact Or.inl h
    | some l =>
      cases i
      · intro ev h
        have h1 : ev ∈ revs ++ (Jvm.drop jvm rs).2 := h
        rcases List.mem_append.mp h1 with h2 | h2
        · exact Or.inl h2
        · rcases drop_events jvm rs ev h2 with h3 | h3
          · exact Or.inr (Or.inr (Or.inl h3))
          · exact Or.inr (Or.inr (Or.inr h3))
      · intro ev h
        have h1 : ev ∈ revs ++ [Event.nativeLibInit l] := h
        rcases List.mem_append.mp h1 with h2 | h2
        · exact Or.inl h2
        · simp only [List.mem_singleton] at h2
          exact Or.inr (Or.inl ⟨l, h2⟩)

/-- No branch-decision event is emitted after the branch decision itself:
the post-`try_from` phase of a creation emits none. -/
theorem createPostTry_no_branch_events (w : World) (env : Nat) (s : LState)
    (i : Bool) (lib : Option String) :
    ∀ ev ∈ (createPostTry i lib (Jvm.try_from w env s)).2.2,
      ev.isBranchDecision = false := by
  intro ev h
  rcases createPostTry_events i lib _ ev h with h1 | ⟨l, h1⟩ | h1 | h1
  · rcases try_from_events_shape w env s ev h1 with h2 | h2 | h2
    · cases ev <;> first | rfl | cases h2
    · rw [h2]; rfl
    · rw [h2]; rfl
  · rw [h1]; rfl
  · rw [h1]; rfl
  · rw [h1]; rfl

/-- A successful `createPostTry` passes the `try_from` handle through
unchanged, and keeps the `try_from` state. -/
theorem createPostTry_ok (i : Bool) (lib : Option String)
    (r : Except J4RsError Jvm × LState × List Event) (jvm2 : Jvm)
    (h : (createPostTry i lib r).1 = Except.ok jvm2) :
    r.1 = Except.ok jvm2 ∧ (createPostTry i lib r).2.1 = r.2.1 := by
  obtain ⟨r1, rs, revs⟩ := r
  cases r1 with
  | error e =>
    exact absurd (show (Except.error e : Except J4RsError Jvm) = Except.ok jvm2 from h)
      (by simp)
  | ok jvm =>
    cases lib with
    | none =>
      have h1 : (Except.ok jvm : Except J4RsError Jvm) = Except.ok jvm2 := h
      exact ⟨h1, rfl⟩
    | some l =>
      cases i
      · exact absurd
          (show (Except.error (J4RsError.JavaError
             "An Exception was thrown by Java... Please check the logs or the console.")
             : Except J4RsError Jvm) = Except.ok jvm2 from h) (by simp)
      · have h1 : (Except.ok jvm : Except J4RsError Jvm) = Except.ok jvm2 := h
        exact ⟨h1, rfl⟩

/-- A successful `try_from` returns the handle for the requested environment,
with detach-on-drop enabled. -/
theorem try_from_ok (w : World) (env : Nat) (s : LState) (jvm : Jvm)
    (h : (Jvm.try_from w env s).1 = Except.ok jvm) :
    jvm = { jni_env := env, detach_thread_on_drop := true } := by
  cases hfp : w.jniFnsPresent
  · unfold Jvm.try_from at h
    rw [if_neg (by simp [hfp])] at h
    cases h
  · rw [try_from_eq w env s hfp] at h
    revert h
    unfold tryFromTail
    cases hp : w.pendingAfterBringup
    · intro h
      simp only [Bool.false_eq_true, if_false] at h
      exact (Except.ok.inj h).symm
    · intro h
      simp only [if_true] at h
      cases h

/-- A successful `try_from` increments the active-handle counter by one. -/
theorem try_from_ok_counter (w : World) (env : Nat) (s : LState) (jvm : Jvm)
    (h : (Jvm.try_from w env s).1 = Except.ok jvm) :
    (Jvm.try_from w env s).2.1.active_jvms = s.active_jvms + 1 := by
  cases hfp : w.jniFnsPresent
  · unfold Jvm.try_from at h
    rw [if_neg (by simp [hfp])] at h
    cases h
  · rw [try_from_eq w env s hfp] at h ⊢
    revert h
    unfold tryFromTail
    cases hp : w.pendingAfterBringup
    · intro _
      rfl
    · intro h
      simp only [if_true] at h
      cases h

/-- The three-way branch of `create_jvm` when the thread-local environment is
cached (api.rs 101-105). -/
theorem create_jvm_branch1 (w : World) (opts : List String) (lib : Option String)
    (s : LState) (env : Nat) (h : s.thread_local_env = some env) :
    Jvm.create_jvm w opts lib s
      = ((createPostTry w.initLibOk lib (Jvm.try_from w env s)).1,
         (createPostTry w.initLibOk lib (Jvm.try_from w env s)).2.1,
         [Event.lockAcquired] ++ [Event.reusedThreadLocalEnv]
           ++ (createPostTry w.initLibOk lib (Jvm.try_from w env s)).2.2
           ++ [Event.lockReleased]) := by
  unfold Jvm.create_jvm createBranch
  rw [h]
  rw [if_neg (by simp [JNI_OK])]

/-- The three-way branch of `create_jvm` when no thread-local environment is
cached but a VM already exists in the process (api.rs 107-113). -/
theorem create_jvm_branch2 (w : World) (opts : List String) (lib : Option String)
    (s : LState) (env : Nat) (h1 : s.thread_local_env = none)
    (h2 : w.createdVm = some env) :
    Jvm.create_jvm w opts lib s
      = ((createPostTry w.initLibOk lib (Jvm.try_from w env s)).1,
         (createPostTry w.initLibOk lib (Jvm.try_from w env s)).2.1,
         [Event.lockAcquired] ++ [Event.attachedToExistingVm]
           ++ (createPostTry w.initLibOk lib (Jvm.try_from w env s)).2.2
           ++ [Event.lockReleased]) := by
  unfold Jvm.create_jvm createBranch
  rw [h1, h2]
  rw [if_neg (by simp [JNI_OK])]

/-- The three-way branch of `create_jvm` when a brand-new VM must be created
and the native create-VM call succeeds (api.rs 114-141). -/
theorem create_jvm_branch3_ok (w : World) (opts : List String) (lib : Option String)
    (s : LState) (h1 : s.thread_local_env = none) (h2 : w.createdVm = none)
    (h3 : w.createVmStatus = JNI_OK) :
    Jvm.create_jvm w opts lib s
      = ((createPostTry w.initLibOk lib (Jvm.try_from w w.newVmEnv s)).1,
         (createPostTry w.initLibOk lib (Jvm.try_from w w.newVmEnv s)).2.1,
         [Event.lockAcquired] ++ [Event.createdNewVm opts]
           ++ (createPostTry w.initLibOk lib (Jvm.try_from w w.newVmEnv s)).2.2
           ++ [Event.lockReleased]) := by
  unfold Jvm.create_jvm createBranch
  rw [h1, h2]
  rw [if_neg (by simp [h3])]

/-- The three-way branch of `create_jvm` when a brand-new VM must be created
and the native create-VM call fails (api.rs 146-157). -/
theorem create_jvm_branch3_fail (w : World) (opts : List String) (lib : Option String)
    (s : LState) (h1 : s.thread_local_env = none) (h2 : w.createdVm = none)
    (h3 : w.createVmStatus ≠ JNI_OK) :
    Jvm.create_jvm w opts lib s
      = (Except.error (J4RsError.JavaError
           ("Could not create the JVM: " ++ jniErrorMessage w.createVmStatus)),
         s, [Event.lockAcquired] ++ [Event.createdNewVm opts] ++ [Event.lockReleased]) := by
  unfold Jvm.create_jvm createBranch
  rw [h1, h2]
  rw [if_pos h3]

/-- After the branch decision, no further branch-decision event can appear in
a creation's event list. -/
theorem branch_decision_not_in (w : World) (env : Nat) (s : LState) (i : Bool)
    (lib : Option String) (bev ev : Event)
    (hev : ev.isBranchDecision = true) (hne : ev ≠ bev) :
    ev ∉ [Event.lockAcquired] ++ [bev]
        ++ (createPostTry i lib (Jvm.try_from w env s)).2.2 ++ [Event.lockReleased] := by
  intro hc
  simp only [List.mem_append, List.mem_singleton] at hc
  rcases hc with ((hc | hc) | hc) | hc
  · subst hc; exact Bool.noConfusion hev
  · exact hne hc
  · have h2 := createPostTry_no_branch_events w env s i lib ev hc
    rw [hev] at h2
    exact Bool.noConfusion h2
  · subst hc; exact Bool.noConfusion hev

/-- A successful creation increments the active-handle counter by exactly
one. -/
theorem create_jvm_ok_counter (w : World) (opts : List String) (lib : Option String)
    (s : LState) (jvm : Jvm) (h : (Jvm.create_jvm w opts lib s).1 = Except.ok jvm) :
    (Jvm.create_jvm w opts lib s).2.1.active_jvms = s.active_jvms + 1 := by
  cases htle : s.thread_local_env with
  | some env =>
    rw [create_jvm_branch1 w opts lib s env htle] at h ⊢
    have h2 := createPostTry_ok w.initLibOk lib (Jvm.try_from w env s) jvm h
    rw [show ((createPostTry w.initLibOk lib (Jvm.try_from w env s)).1,
          (createPostTry w.initLibOk lib (Jvm.try_from w env s)).2.1,
          [Event.lockAcquired] ++ [Event.reusedThreadLocalEnv]
            ++ (createPostTry w.initLibOk lib (Jvm.try_from w env s)).2.2
            ++ [Event.lockReleased]).2.1
        = (createPostTry w.initLibOk lib (Jvm.try_from w env s)).2.1 from rfl, h2.2]
    exact try_from_ok_counter w env s jvm h2.1
  | none =>
    cases hcv : w.createdVm with
    | some env =>
      rw [create_jvm_branch2 w opts lib s env htle hcv] at h ⊢
      have h2 := createPostTry_ok w.initLibOk lib (Jvm.try_from w env s) jvm h
      rw [show ((createPostTry w.initLibOk lib (Jvm.try_from w env s)).1,
            (createPostTry w.initLibOk lib (Jvm.try_from w env s)).2.1,
            [Event.lockAcquired] ++ [Event.attachedToExistingVm]
              ++ (createPostTry w.initLibOk lib (Jvm.try_from w env s)).2.2
              ++ [Event.lockReleased]).2.1
          = (createPostTry w.initLibOk lib (Jvm.try_from w env s)).2.1 from rfl, h2.2]
      exact try_from_ok_counter w env s jvm h2.1
    | none =>
      by_cases hst : w.createVmStatus = JNI_OK
      · rw [create_jvm_branch3_ok w opts lib s htle hcv hst] at h ⊢
        have h2 := createPostTry_ok w.initLibOk lib (Jvm.try_from w w.newVmEnv s) jvm h
        rw [show ((createPostTry w.initLibOk lib (Jvm.try_from w w.newVmEnv s)).1,
              (createPostTry w.initLibOk lib (Jvm.try_from w w.newVmEnv s)).2.1,
              [Event.lockAcquired] ++ [Event.createdNewVm opts]
                ++ (createPostTry w.initLibOk lib (Jvm.try_from w w.newVmEnv s)).2.2
                ++ [Event.lockReleased]).2.1
            = (createPostTry w.initLibOk lib (Jvm.try_from w w.newVmEnv s)).2.1 from rfl,
           h2.2]
        exact try_from_ok_counter w w.newVmEnv s jvm h2.1
      · rw [create_jvm_branch3_fail w opts lib s htle hcv hst] at h
        cases h

/-- Every handle drop decrements the active-handle counter by exactly one. -/
theorem drop_counter (jvm : Jvm) (s : LState) :
    (Jvm.drop jvm s).1.active_jvms = s.active_jvms - 1 := by
  unfold Jvm.drop
  by_cases hn : (remove_active_jvm s).1 ≤ 0
  · rw [if_pos hn]; rfl
  · rw [if_neg hn]; rfl

/-- Dropping all of K live handles from a counter of K drives the counter to
zero, clears the thread-local environment, and emits its teardown events
exactly once, on the last drop: one thread detachment when the last handle has
detach-on-drop enabled (none when disabled) and one thread-local-environment
clear. -/
theorem dropAll_run (hs : List Jvm) : ∀ (s : LState) (jl : Jvm),
    s.active_jvms = hs.length → hs.getLast? = some jl →
    (Jvm.dropAll hs s).1.active_jvms = 0 ∧
    (Jvm.dropAll hs s).1.thread_local_env = none ∧
    (Jvm.dropAll hs s).2
      = (if jl.detach_thread_on_drop then [Event.detachedThread] else [])
         ++ [Event.clearedThreadLocalEnv] := by
  induction hs with
  | nil => intro s jl h hl; cases hl
  | cons j rest ih =>
    intro s jl h hl
    cases rest with
    | nil =>
      have hj : jl = j := by
        simp only [List.getLast?_singleton, Option.some.injEq] at hl
        exact hl.symm
      subst hj
      have h1 : s.active_jvms = 1 := by simpa using h
      have hn : (remove_active_jvm s).1 ≤ 0 := by
        unfold remove_active_jvm
        rw [h1]
        simp
      simp only [Jvm.dropAll]
      unfold Jvm.drop
      rw [if_pos hn]
      refine ⟨?_, rfl, ?_⟩
      · show ({ (remove_active_jvm s).2 with thread_local_env := none }).active_jvms = (0 : Int)
        unfold remove_active_jvm
        rw [h1]
        simp
      · simp
    | cons j2 rest2 =>
      have hpos : ¬ (remove_active_jvm s).1 ≤ 0 := by
        unfold remove_active_jvm
        rw [h]
        simp only [List.length_cons]
        push_cast
        omega
      simp only [Jvm.dropAll]
      unfold Jvm.drop
      rw [if_neg hpos]
      have hlen : ((remove_active_jvm s).2).active_jvms = (j2 :: rest2).length := by
        show s.active_jvms - 1 = ((j2 :: rest2).length : Int)
        rw [h]
        simp only [List.length_cons]
        push_cast
        omega
      have hl2 : (j2 :: rest2).getLast? = some jl := by
        rw [← List.getLast?_cons_cons]
        exact hl
      obtain ⟨ha, hb, hc⟩ := ih (remove_active_jvm s).2 jl hlen hl2
      refine ⟨ha, hb, ?_⟩
      rw [List.nil_append]
      exact hc

/-! ## Helper lemmas: running engine operations -/

theorem bind_assoc_apply {α β γ : Type} (m : JniM α) (g : α → JniM β) (k : β → JniM γ)
    (s : OpState) :
    ((m >>= g) >>= k) s = (m >>= fun a => g a >>= k) s := by
  show JniM.bind (JniM.bind m g) k s = JniM.bind m (fun a => JniM.bind (g a) k) s
  unfold JniM.bind
  rcases m s with ⟨r, s1⟩
  cases r
  · rfl
  · rfl

theorem bind_pure_apply {α β : Type} (a : α) (f : α → JniM β) (s : OpState) :
    ((pure a : JniM α) >>= f) s = f a s := rfl

theorem bind_liftE_ok {α β : Type} (a : α) (f : α → JniM β) (s : OpState) :
    (JniM.liftE (Except.ok a) >>= f) s = f a s := rfl

theorem bind_liftE_error {α β : Type} (e : J4RsError) (f : α → JniM β) (s : OpState) :
    (JniM.liftE (Except.error e) >>= f) s = (Except.error e, s) := rfl

theorem bind_global_str {α : Type} (w : OpWorld) (str : String) (f : Nat → JniM α)
    (s : OpState) :
    (global_jobject_from_str w str >>= f) s
      = f 0 { s with events := s.events ++ [OEvent.tookGlobalRef RefSrc.nameString] } := rfl

theorem bind_create_global_ref {α : Type} (w : OpWorld) (src : RefSrc) (localRef : Nat)
    (f : Nat → JniM α) (s : OpState) :
    (create_global_ref_from_local_ref w src localRef >>= f) s
      = f (w.globalRefOf localRef)
          { s with events := s.events ++ [OEvent.tookGlobalRef src] } := rfl

theorem bind_delete_ref {α : Type} (r : Nat) (f : Unit → JniM α) (s : OpState) :
    (delete_java_ref r >>= f) s = f () s := rfl

theorem bind_rawJvmCall {α : Type} (throws : Bool) (res : Nat) (f : Nat → JniM α)
    (s : OpState) :
    (rawJvmCall throws res >>= f) s
      = f res { s with pending := s.pending || throws,
                       events := s.events ++ [OEvent.jvmCalled] } := rfl

theorem bind_allocSender {α : Type} (f : Nat → JniM α) (s : OpState) :
    (allocSender >>= f) s
      = f s.nextAddr { s with heap := s.heap ++ [s.nextAddr],
                              nextAddr := s.nextAddr + 1 } := rfl

theorem bind_rawVoidChannelCall {α : Type} (addr : Int) (throws : Bool)
    (f : Unit → JniM α) (s : OpState) :
    (rawVoidChannelCall addr throws >>= f) s
      = f () { s with pending := s.pending || throws,
                      events := s.events ++ [OEvent.channelCalled addr] } := rfl

theorem marshalArgs_run (l : List InvocationArg) (s : OpState) :
    marshalArgs l s = (Except.ok (l.map fun _ => (0 : Nat)), s) := by
  induction l generalizing s with
  | nil => rfl
  | cons a rest ih =>
    have h1 : marshalArgs (a :: rest) s
        = (marshalArgs rest >>= fun js => pure ((0 : Nat) :: js)) s := rfl
    rw [h1]
    show JniM.bind (marshalArgs rest) _ s = _
    unfold JniM.bind
    rw [ih s]
    rfl

theorem bind_marshalArgs {α : Type} (l : List InvocationArg) (f : List Nat → JniM α)
    (s : OpState) :
    (marshalArgs l >>= f) s = f (l.map fun _ => (0 : Nat)) s := by
  show JniM.bind (marshalArgs l) f s = _
  unfold JniM.bind
  rw [marshalArgs_run l s]

theorem bind_do_return_false {α β : Type} (t : α) (f : α → JniM β)
    (ev : List OEvent) (hp : List Nat) (na : Nat) :
    (do_return t >>= f) { pending := false, events := ev, heap := hp, nextAddr := na }
      = f t { pending := false, events := ev ++ [OEvent.excChecked false],
              heap := hp, nextAddr := na } := rfl

theorem bind_do_return_true {α β : Type} (t : α) (f : α → JniM β)
    (ev : List OEvent) (hp : List Nat) (na : Nat) :
    (do_return t >>= f) { pending := true, events := ev, heap := hp, nextAddr := na }
      = (Except.error (J4RsError.JavaError exThrownMsg),
         { pending := false,
           events := ev ++ [OEvent.excChecked true, OEvent.excDescribed, OEvent.excCleared],
           heap := hp, nextAddr := na }) := rfl

theorem do_return_false {α : Type} (t : α) (ev : List OEvent) (hp : List Nat) (na : Nat) :
    do_return t { pending := false, events := ev, heap := hp, nextAddr := na }
      = (Except.ok t, { pending := false, events := ev ++ [OEvent.excChecked false],
                        heap := hp, nextAddr := na }) := rfl

theorem do_return_true {α : Type} (t : α) (ev : List OEvent) (hp : List Nat) (na : Nat) :
    do_return t { pending := true, events := ev, heap := hp, nextAddr := na }
      = (Except.error (J4RsError.JavaError exThrownMsg),
         { pending := false,
           events := ev ++ [OEvent.excChecked true, OEvent.excDescribed, OEvent.excCleared],
           heap := hp, nextAddr := na }) := rfl

/-- `Jvm::invoke`, evaluated: on a clean state, a throwing target yields the
`JavaError` with the exception described and cleared (and no promotion of the
call's result); a non-throwing target yields the wrapped Instance. -/
theorem invoke_run (E : Entries) (w : OpWorld) (inst : Instance) (mn : String)
    (args : List InvocationArg) (throws : Bool) (s : OpState)
    (vA vI : Nat) (hA : E CEntry.invocation_arg_class = some vA)
    (hI : E CEntry.invoke_method = some vI) (hp : s.pending = false) :
    Jvm.invoke E w inst mn args throws s
      = if throws then
          (Except.error (J4RsError.JavaError exThrownMsg),
           { pending := false,
             events := s.events ++ [OEvent.tookGlobalRef RefSrc.nameString,
               OEvent.tookGlobalRef RefSrc.argArray, OEvent.jvmCalled,
               OEvent.excChecked true, OEvent.excDescribed, OEvent.excCleared],
             heap := s.heap, nextAddr := s.nextAddr })
        else
          (Except.ok { class_name := UNKNOWN_FOR_RUST,
                       jinstance := w.globalRefOf w.callResultRef },
           { pending := false,
             events := s.events ++ [OEvent.tookGlobalRef RefSrc.nameString,
               OEvent.tookGlobalRef RefSrc.argArray, OEvent.jvmCalled,
               OEvent.excChecked false, OEvent.tookGlobalRef RefSrc.callResult,
               OEvent.excChecked false],
             heap := s.heap, nextAddr := s.nextAddr }) := by
  cases throws
  · simp only [Jvm.invoke, newInvArgArray, callObjectMethod, opt_to_res, hA, hI,
      bind_assoc_apply, bind_liftE_ok, bind_global_str, bind_create_global_ref,
      bind_delete_ref, bind_rawJvmCall, bind_marshalArgs, bind_pure_apply, hp,
      Bool.or_false, bind_do_return_false, do_return_false, Bool.false_eq_true,
      if_false, List.append_assoc, List.cons_append, List.nil_append]
  · simp only [Jvm.invoke, newInvArgArray, callObjectMethod, opt_to_res, hA, hI,
      bind_assoc_apply, bind_liftE_ok, bind_global_str, bind_create_global_ref,
      bind_delete_ref, bind_rawJvmCall, bind_marshalArgs, bind_pure_apply, hp,
      Bool.or_true, bind_do_return_true, do_return_true, if_true,
      List.append_assoc, List.cons_append, List.nil_append]

/-- `Jvm::create_instance`, evaluated: the exception check precedes the
promotion of the call's raw result; on success the requested class name is
recorded. -/
theorem create_instance_run (E : Entries) (w : OpWorld) (cn : String)
    (args : List InvocationArg) (throws : Bool) (s : OpState)
    (vA vF vM : Nat) (hA : E CEntry.invocation_arg_class = some vA)
    (hF : E CEntry.factory_class = some vF)
    (hM : E CEntry.factory_instantiate_method = some vM) (hp : s.pending = false) :
    Jvm.create_instance E w cn args throws s
      = if throws then
          (Except.error (J4RsError.JavaError exThrownMsg),
           { pending := false,
             events := s.events ++ [OEvent.tookGlobalRef RefSrc.nameString,
               OEvent.tookGlobalRef RefSrc.argArray, OEvent.jvmCalled,
               OEvent.excChecked true, OEvent.excDescribed, OEvent.excCleared],
             heap := s.heap, nextAddr := s.nextAddr })
        else
          (Except.ok { class_name := cn,
                       jinstance := w.globalRefOf w.callResultRef },
           { pending := false,
             events := s.events ++ [OEvent.tookGlobalRef RefSrc.nameString,
               OEvent.tookGlobalRef RefSrc.argArray, OEvent.jvmCalled,
               OEvent.excChecked false, OEvent.tookGlobalRef RefSrc.callResult,
               OEvent.excChecked false],
             heap := s.heap, nextAddr := s.nextAddr }) := by
  cases throws <;>
    simp only [Jvm.create_instance, newInvArgArray, callStaticObjectMethod, opt_to_res,
      hA, hF, hM, hp, bind_assoc_apply, bind_pure_apply, bind_liftE_ok, bind_liftE_error,
      bind_global_str, bind_create_global_ref, bind_delete_ref, bind_rawJvmCall,
      bind_marshalArgs, bind_do_return_false, bind_do_return_true, do_return_false,
      do_return_true, Bool.or_false, Bool.false_or, Bool.or_true, Bool.true_or,
      Bool.false_eq_true, if_false, if_true,
      List.append_assoc, List.cons_append, List.nil_append]

/-- `Jvm::create_java_array`, evaluated. -/
theorem create_java_array_run (E : Entries) (w : OpWorld) (cn : String)
    (args : List InvocationArg) (throws : Bool) (s : OpState)
    (vA vF vM : Nat) (hA : E CEntry.invocation_arg_class = some vA)
    (hF : E CEntry.factory_class = some vF)
    (hM : E CEntry.factory_create_java_array_method = some vM) (hp : s.pending = false) :
    Jvm.create_java_array E w cn args throws s
      = if throws then
          (Except.error (J4RsError.JavaError exThrownMsg),
           { pending := false,
             events := s.events ++ [OEvent.tookGlobalRef RefSrc.nameString,
               OEvent.tookGlobalRef RefSrc.argArray, OEvent.jvmCalled,
               OEvent.excChecked true, OEvent.excDescribed, OEvent.excCleared],
             heap := s.heap, nextAddr := s.nextAddr })
        else
          (Except.ok { class_name := cn,
                       jinstance := w.globalRefOf w.callResultRef },
           { pending := false,
             events := s.events ++ [OEvent.tookGlobalRef RefSrc.nameString,
               OEvent.tookGlobalRef RefSrc.argArray, OEvent.jvmCalled,
               OEvent.excChecked false, OEvent.tookGlobalRef RefSrc.callResult,
               OEvent.excChecked false],
             heap := s.heap, nextAddr := s.nextAddr }) := by
  cases throws <;>
    simp only [Jvm.create_java_array, newInvArgArray, callStaticObjectMethod, opt_to_res,
      hA, hF, hM, hp, bind_assoc_apply, bind_pure_apply, bind_liftE_ok, bind_liftE_error,
      bind_global_str, bind_create_global_ref, bind_delete_ref, bind_rawJvmCall,
      bind_marshalArgs, bind_do_return_false, bind_do_return_true, do_return_false,
      do_return_true, Bool.or_false, Bool.false_or, Bool.or_true, Bool.true_or,
      Bool.false_eq_true, if_false, if_true,
      List.append_assoc, List.cons_append, List.nil_append]

/-- `Jvm::do_create_java_list`, evaluated. -/
theorem create_java_list_run (E : Entries) (w : OpWorld) (cn : String)
    (args : List InvocationArg) (throws : Bool) (s : OpState)
    (vA vF vM : Nat) (hA : E CEntry.invocation_arg_class = some vA)
    (hF : E CEntry.factory_class = some vF)
    (hM : E CEntry.factory_create_java_list_method = some vM) (hp : s.pending = false) :
    Jvm.create_java_list E w cn args throws s
      = if throws then
          (Except.error (J4RsError.JavaError exThrownMsg),
           { pending := false,
             events := s.events ++ [OEvent.tookGlobalRef RefSrc.nameString,
               OEvent.tookGlobalRef RefSrc.argArray, OEvent.jvmCalled,
               OEvent.excChecked true, OEvent.excDescribed, OEvent.excCleared],
             heap := s.heap, nextAddr := s.nextAddr })
        else
          (Except.ok { class_name := cn,
                       jinstance := w.globalRefOf w.callResultRef },
           { pending := false,
             events := s.events ++ [OEvent.tookGlobalRef RefSrc.nameString,
               OEvent.tookGlobalRef RefSrc.argArray, OEvent.jvmCalled,
               OEvent.excChecked false, OEvent.tookGlobalRef RefSrc.callResult,
               OEvent.excChecked false],
             heap := s.heap, nextAddr := s.nextAddr }) := by
  cases throws <;>
    simp only [Jvm.create_java_list, newInvArgArray, callStaticObjectMethod, opt_to_res,
      hA, hF, hM, hp, bind_assoc_apply, bind_pure_apply, bind_liftE_ok, bind_liftE_error,
      bind_global_str, bind_create_global_ref, bind_delete_ref, bind_rawJvmCall,
      bind_marshalArgs, bind_do_return_false, bind_do_return_true, do_return_false,
      do_return_true, Bool.or_false, Bool.false_or, Bool.or_true, Bool.true_or,
      Bool.false_eq_true, if_false, if_true,
      List.append_assoc, List.cons_append, List.nil_append]

/-- `Jvm::field`, evaluated. -/
theorem field_run (E : Entries) (w : OpWorld) (inst : Instance) (fieldName : String)
    (throws : Bool) (s : OpState) (vM : Nat)
    (hM : E CEntry.field_method = some vM) (hp : s.pending = false) :
    Jvm.field E w inst fieldName throws s
      = if throws then
          (Except.error (J4RsError.JavaError exThrownMsg),
           { pending := false,
             events := s.events ++ [OEvent.tookGlobalRef RefSrc.nameString,
               OEvent.jvmCalled, OEvent.excChecked true, OEvent.excDescribed,
               OEvent.excCleared],
             heap := s.heap, nextAddr := s.nextAddr })
        else
          (Except.ok { class_name := UNKNOWN_FOR_RUST,
                       jinstance := w.globalRefOf w.callResultRef },
           { pending := false,
             events := s.events ++ [OEvent.tookGlobalRef RefSrc.nameString,
               OEvent.jvmCalled, OEvent.excChecked false,
               OEvent.tookGlobalRef RefSrc.callResult, OEvent.excChecked false],
             heap := s.heap, nextAddr := s.nextAddr }) := by
  cases throws <;>
    simp only [Jvm.field, callObjectMethod, opt_to_res, hM, hp,
      bind_assoc_apply, bind_pure_apply, bind_liftE_ok, bind_liftE_error,
      bind_global_str, bind_create_global_ref, bind_delete_ref, bind_rawJvmCall,
      bind_do_return_false, bind_do_return_true, do_return_false, do_return_true,
      Bool.or_false, Bool.false_or, Bool.or_true, Bool.true_or,
      Bool.false_eq_true, if_false, if_true,
      List.append_assoc, List.cons_append, List.nil_append]

/-- `Jvm::invoke_static`, evaluated: one exception check covers both the
`createForStatic` call and the `invokeStatic` call; the check precedes the
`Instance::from` promotion. -/
theorem invoke_static_run (E : Entries) (w : OpWorld) (cn mn : String)
    (args : List InvocationArg) (tF tC : Bool) (s : OpState)
    (vA vF vS vM : Nat) (hA : E CEntry.invocation_arg_class = some vA)
    (hF : E CEntry.factory_class = some vF)
    (hS : E CEntry.factory_create_for_static_method = some vS)
    (hM : E CEntry.invoke_static_method = some vM) (hp : s.pending = false) :
    Jvm.invoke_static E w cn mn args tF tC s
      = if tF || tC then
          (Except.error (J4RsError.JavaError exThrownMsg),
           { pending := false,
             events := s.events ++ [OEvent.tookGlobalRef RefSrc.nameString,
               OEvent.jvmCalled, OEvent.tookGlobalRef RefSrc.nameString,
               OEvent.tookGlobalRef RefSrc.argArray, OEvent.jvmCalled,
               OEvent.excChecked true, OEvent.excDescribed, OEvent.excCleared],
             heap := s.heap, nextAddr := s.nextAddr })
        else
          (Except.ok { class_name := UNKNOWN_FOR_RUST,
                       jinstance := w.globalRefOf w.callResultRef },
           { pending := false,
             events := s.events ++ [OEvent.tookGlobalRef RefSrc.nameString,
               OEvent.jvmCalled, OEvent.tookGlobalRef RefSrc.nameString,
               OEvent.tookGlobalRef RefSrc.argArray, OEvent.jvmCalled,
               OEvent.excChecked false, OEvent.tookGlobalRef RefSrc.callResult,
               OEvent.excChecked false],
             heap := s.heap, nextAddr := s.nextAddr }) := by
  cases tF <;> cases tC <;>
    simp only [Jvm.invoke_static, newInvArgArray, callStaticObjectMethod,
      callObjectMethod, Instance.fromObj, opt_to_res, hA, hF, hS, hM, hp,
      bind_assoc_apply, bind_pure_apply, bind_liftE_ok, bind_liftE_error,
      bind_global_str, bind_create_global_ref, bind_delete_ref, bind_rawJvmCall,
      bind_marshalArgs, bind_do_return_false, bind_do_return_true, do_return_false,
      do_return_true, Bool.or_false, Bool.false_or, Bool.or_true, Bool.true_or,
      Bool.false_eq_true, if_false, if_true,
      List.append_assoc, List.cons_append, List.nil_append]

/-- `Jvm::cast`, evaluated: the exception check precedes the `Instance::from`
promotion. -/
theorem cast_run (E : Entries) (w : OpWorld) (inst : Instance) (toClass : String)
    (throws : Bool) (s : OpState) (vC vM : Nat)
    (hC : E CEntry.class_to_invoke_clone_and_cast = some vC)
    (hM : E CEntry.cast_static_method = some vM) (hp : s.pending = false) :
    Jvm.cast E w inst toClass throws s
      = if throws then
          (Except.error (J4RsError.JavaError exThrownMsg),
           { pending := false,
             events := s.events ++ [OEvent.tookGlobalRef RefSrc.nameString,
               OEvent.jvmCalled, OEvent.excChecked true, OEvent.excDescribed,
               OEvent.excCleared],
             heap := s.heap, nextAddr := s.nextAddr })
        else
          (Except.ok { class_name := UNKNOWN_FOR_RUST,
                       jinstance := w.globalRefOf w.callResultRef },
           { pending := false,
             events := s.events ++ [OEvent.tookGlobalRef RefSrc.nameString,
               OEvent.jvmCalled, OEvent.excChecked false,
               OEvent.tookGlobalRef RefSrc.callResult, OEvent.excChecked false],
             heap := s.heap, nextAddr := s.nextAddr }) := by
  cases throws <;>
    simp only [Jvm.cast, callStaticObjectMethod, Instance.fromObj, opt_to_res,
      hC, hM, hp, bind_assoc_apply, bind_pure_apply, bind_liftE_ok, bind_liftE_error,
      bind_global_str, bind_create_global_ref, bind_delete_ref, bind_rawJvmCall,
      bind_do_return_false, bind_do_return_true, do_return_false, do_return_true,
      Bool.or_false, Bool.false_or, Bool.or_true, Bool.true_or,
      Bool.false_eq_true, if_false, if_true,
      List.append_assoc, List.cons_append, List.nil_append]

/-- `Jvm::clone_instance`, evaluated: the promotion of the call's raw result
(inside `Instance::from`) happens before the exception check, also when the
call throws — the trace shows `tookGlobalRef callResult` before `excChecked`
in both cases. -/
theorem clone_instance_run (E : Entries) (w : OpWorld) (inst : Instance)
    (throws : Bool) (s : OpState) (vC vM : Nat)
    (hC : E CEntry.class_to_invoke_clone_and_cast = some vC)
    (hM : E CEntry.clone_static_method = some vM) (hp : s.pending = false) :
    Jvm.clone_instance E w inst throws s
      = if throws then
          (Except.error (J4RsError.JavaError exThrownMsg),
           { pending := false,
             events := s.events ++ [OEvent.jvmCalled,
               OEvent.tookGlobalRef RefSrc.callResult,
               OEvent.excChecked true, OEvent.excDescribed, OEvent.excCleared],
             heap := s.heap, nextAddr := s.nextAddr })
        else
          (Except.ok { class_name := UNKNOWN_FOR_RUST,
                       jinstance := w.globalRefOf w.callResultRef },
           { pending := false,
             events := s.events ++ [OEvent.jvmCalled,
               OEvent.tookGlobalRef RefSrc.callResult, OEvent.excChecked false],
             heap := s.heap, nextAddr := s.nextAddr }) := by
  cases throws <;>
    simp only [Jvm.clone_instance, callStaticObjectMethod, Instance.fromObj, opt_to_res,
      hC, hM, hp, bind_assoc_apply, bind_pure_apply, bind_liftE_ok, bind_liftE_error,
      bind_create_global_ref, bind_rawJvmCall,
      bind_do_return_false, bind_do_return_true, do_return_false, do_return_true,
      Bool.or_false, Bool.false_or, Bool.or_true, Bool.true_or,
      Bool.false_eq_true, if_false, if_true,
      List.append_assoc, List.cons_append, List.nil_append]

/-- `Jvm::to_rust` on a throwing target, evaluated. -/
theorem to_rust_run_throws {α : Type} (E : Entries) (w : OpWorld) (inst : Instance)
    (parse : String → Except J4RsError α) (s : OpState) (vM : Nat)
    (hM : E CEntry.get_json_method = some vM) (hp : s.pending = false) :
    Jvm.to_rust E w inst parse true s
      = (Except.error (J4RsError.JavaError exThrownMsg),
         { pending := false,
           events := s.events ++ [OEvent.jvmCalled, OEvent.excChecked true,
             OEvent.excDescribed, OEvent.excCleared],
           heap := s.heap, nextAddr := s.nextAddr }) := by
  simp only [Jvm.to_rust, callObjectMethod, opt_to_res, hM, hp,
    bind_assoc_apply, bind_pure_apply, bind_liftE_ok, bind_liftE_error,
    bind_create_global_ref, bind_delete_ref, bind_rawJvmCall,
    bind_do_return_false, bind_do_return_true, do_return_false, do_return_true,
    Bool.or_true, List.append_assoc, List.cons_append, List.nil_append]

/-- `Jvm::to_rust` on a non-throwing target with successful
deserialization, evaluated. -/
theorem to_rust_run_ok {α : Type} (E : Entries) (w : OpWorld) (inst : Instance)
    (parse : String → Except J4RsError α) (s : OpState) (vM : Nat) (v : α)
    (hM : E CEntry.get_json_method = some vM) (hp : s.pending = false)
    (hparse : parse (w.jsonOf (w.globalRefOf w.callResultRef)) = Except.ok v) :
    Jvm.to_rust E w inst parse false s
      = (Except.ok v,
         { pending := false,
           events := s.events ++ [OEvent.jvmCalled, OEvent.excChecked false,
             OEvent.tookGlobalRef RefSrc.callResult, OEvent.excChecked false],
           heap := s.heap, nextAddr := s.nextAddr }) := by
  simp only [Jvm.to_rust, callObjectMethod, opt_to_res, hM, hp, hparse,
    bind_assoc_apply, bind_pure_apply, bind_liftE_ok, bind_liftE_error,
    bind_create_global_ref, bind_delete_ref, bind_rawJvmCall,
    bind_do_return_false, bind_do_return_true, do_return_false, do_return_true,
    Bool.or_false, List.append_assoc, List.cons_append, List.nil_append]

/-- `Jvm::invoke_to_channel`, evaluated: the boxed sender's fresh heap address
is allocated, passed (as an `i64`) to the `invokeToChannel` call, and stored
in the returned receiver. -/
theorem invoke_to_channel_run (E : Entries) (w : OpWorld) (inst : Instance)
    (mn : String) (args : List InvocationArg) (throws : Bool) (s : OpState)
    (vA vM : Nat) (hA : E CEntry.invocation_arg_class = some vA)
    (hM : E CEntry.invoke_to_channel_method = some vM) (hp : s.pending = false) :
    Jvm.invoke_to_channel E w inst mn args throws s
      = if throws then
          (Except.error (J4RsError.JavaError exThrownMsg),
           { pending := false,
             events := s.events ++ [OEvent.tookGlobalRef RefSrc.nameString,
               OEvent.tookGlobalRef RefSrc.argArray,
               OEvent.channelCalled (addrToI64 s.nextAddr),
               OEvent.excChecked true, OEvent.excDescribed, OEvent.excCleared],
             heap := s.heap ++ [s.nextAddr], nextAddr := s.nextAddr + 1 })
        else
          (Except.ok (InstanceReceiver.new s.nextAddr),
           { pending := false,
             events := s.events ++ [OEvent.tookGlobalRef RefSrc.nameString,
               OEvent.tookGlobalRef RefSrc.argArray,
               OEvent.channelCalled (addrToI64 s.nextAddr),
               OEvent.excChecked false, OEvent.excChecked false],
             heap := s.heap ++ [s.nextAddr], nextAddr := s.nextAddr + 1 }) := by
  cases throws <;>
    simp only [Jvm.invoke_to_channel, newInvArgArray, callVoidChannelMethod, opt_to_res,
      hA, hM, hp, bind_assoc_apply, bind_pure_apply, bind_liftE_ok, bind_liftE_error,
      bind_global_str, bind_create_global_ref, bind_delete_ref, bind_allocSender,
      bind_rawVoidChannelCall, bind_marshalArgs,
      bind_do_return_false, bind_do_return_true, do_return_false, do_return_true,
      Bool.or_false, Bool.false_or, Bool.or_true, Bool.true_or,
      Bool.false_eq_true, if_false, if_true,
      List.append_assoc, List.cons_append, List.nil_append]

/-- `Jvm::init_callback_channel`, evaluated. -/
theorem init_callback_channel_run (E : Entries) (w : OpWorld) (inst : Instance)
    (throws : Bool) (s : OpState) (vM : Nat)
    (hM : E CEntry.init_callback_channel_method = some vM) (hp : s.pending = false) :
    Jvm.init_callback_channel E w inst throws s
      = if throws then
          (Except.error (J4RsError.JavaError exThrownMsg),
           { pending := false,
             events := s.events ++ [OEvent.channelCalled (addrToI64 s.nextAddr),
               OEvent.excChecked true, OEvent.excDescribed, OEvent.excCleared],
             heap := s.heap ++ [s.nextAddr], nextAddr := s.nextAddr + 1 })
        else
          (Except.ok (InstanceReceiver.new s.nextAddr),
           { pending := false,
             events := s.events ++ [OEvent.channelCalled (addrToI64 s.nextAddr),
               OEvent.excChecked false],
             heap := s.heap ++ [s.nextAddr], nextAddr := s.nextAddr + 1 }) := by
  cases throws <;>
    simp only [Jvm.init_callback_channel, callVoidChannelMethod, opt_to_res, hM, hp,
      bind_assoc_apply, bind_pure_apply, bind_liftE_ok, bind_liftE_error,
      bind_allocSender, bind_rawVoidChannelCall,
      bind_do_return_false, bind_do_return_true, do_return_false, do_return_true,
      Bool.or_false, Bool.false_or, Bool.or_true, Bool.true_or,
      Bool.false_eq_true, if_false, if_true,
      List.append_assoc, List.cons_append, List.nil_append]

/-- A fully populated cache answers every entry. -/
theorem populated_get (E : Entries) (h : Entries.populatedB E = true) (e : CEntry) :
    ∃ v, E e = some v := by
  have h2 := List.all_eq_true.mp h e (mem_resolutionOrder e)
  exact Option.isSome_iff_exists.mp (by simpa using h2)

/-- Package the two evaluated runs of an operation into its
exception-boundary contract. -/
theorem clears_of_run {α : Type} (op : Bool → JniM α) (s : OpState)
    (errS okS : OpState) (out : α)
    (hT : op true s = (Except.error (J4RsError.JavaError exThrownMsg), errS))
    (hF : op false s = (Except.ok out, okS))
    (hpend : errS.pending = false) (hpend2 : okS.pending = false)
    (hd : OEvent.excDescribed ∈ errS.events) (hc : OEvent.excCleared ∈ errS.events) :
    clearsExceptions op s := by
  unfold clearsExceptions
  rw [hT, hF]
  exact ⟨rfl, hpend, hd, hc, ⟨out, rfl⟩, hpend2⟩

/-! ## Theorems -/

/-- C1: Jvm creation (`Jvm::new` / `Jvm::attach_thread` via `create_jvm`)
follows a three-branch contract, all decided under one process-wide lock
(the whole event list is bracketed by the lock events): if the calling thread
already has a thread-local JNI environment cached, that environment is reused
(no attach, no VM creation); otherwise, if a JVM was already created in this
process, the calling thread is attached to it; otherwise a brand-new JVM is
created with exactly the given option strings.  If the resulting JNI status is
not `JNI_OK`, the call returns a `JavaError` and no Jvm handle is produced. -/
theorem C1_create_jvm_contract (w : World) (opts : List String)
    (lib : Option String) (s : LState) :
    (∃ inner, (Jvm.create_jvm w opts lib s).2.2
        = [Event.lockAcquired] ++ inner ++ [Event.lockReleased]) ∧
    (∀ env, s.thread_local_env = some env →
       Event.reusedThreadLocalEnv ∈ (Jvm.create_jvm w opts lib s).2.2 ∧
       (∀ o, Event.createdNewVm o ∉ (Jvm.create_jvm w opts lib s).2.2) ∧
       Event.attachedToExistingVm ∉ (Jvm.create_jvm w opts lib s).2.2 ∧
       (∀ jvm, (Jvm.create_jvm w opts lib s).1 = Except.ok jvm → jvm.jni_env = env)) ∧
    (s.thread_local_env = none → ∀ env, w.createdVm = some env →
       Event.attachedToExistingVm ∈ (Jvm.create_jvm w opts lib s).2.2 ∧
       (∀ o, Event.createdNewVm o ∉ (Jvm.create_jvm w opts lib s).2.2) ∧
       (∀ jvm, (Jvm.create_jvm w opts lib s).1 = Except.ok jvm → jvm.jni_env = env)) ∧
    (s.thread_local_env = none → w.createdVm = none → w.createVmStatus = JNI_OK →
       Event.createdNewVm opts ∈ (Jvm.create_jvm w opts lib s).2.2 ∧
       (∀ jvm, (Jvm.create_jvm w opts lib s).1 = Except.ok jvm →
          jvm.jni_env = w.newVmEnv)) ∧
    (s.thread_local_env = none → w.createdVm = none → w.createVmStatus ≠ JNI_OK →
       (Jvm.create_jvm w opts lib s).1
         = Except.error (J4RsError.JavaError
             ("Could not create the JVM: " ++ jniErrorMessage w.createVmStatus)) ∧
       Event.createdNewVm opts ∈ (Jvm.create_jvm w opts lib s).2.2) := by
  refine ⟨?_, ?_, ?_, ?_, ?_⟩
  · cases htle : s.thread_local_env with
    | some env =>
      rw [create_jvm_branch1 w opts lib s env htle]
      exact ⟨[Event.reusedThreadLocalEnv]
              ++ (createPostTry w.initLibOk lib (Jvm.try_from w env s)).2.2,
             by simp⟩
    | none =>
      cases hcv : w.createdVm with
      | some env =>
        rw [create_jvm_branch2 w opts lib s env htle hcv]
        exact ⟨[Event.attachedToExistingVm]
                ++ (createPostTry w.initLibOk lib (Jvm.try_from w env s)).2.2,
               by simp⟩
      | none =>
        by_cases hst : w.createVmStatus = JNI_OK
        · rw [create_jvm_branch3_ok w opts lib s htle hcv hst]
          exact ⟨[Event.createdNewVm opts]
                  ++ (createPostTry w.initLibOk lib (Jvm.try_from w w.newVmEnv s)).2.2,
                 by simp⟩
        · rw [create_jvm_branch3_fail w opts lib s htle hcv hst]
          exact ⟨[Event.createdNewVm opts], by simp⟩
  · intro env htle
    rw [create_jvm_branch1 w opts lib s env htle]
    refine ⟨by simp, ?_, ?_, ?_⟩
    · intro o
      exact branch_decision_not_in w env s w.initLibOk lib
        Event.reusedThreadLocalEnv (Event.createdNewVm o) rfl (by simp)
    · exact branch_decision_not_in w env s w.initLibOk lib
        Event.reusedThreadLocalEnv Event.attachedToExistingVm rfl (by simp)
    · intro jvm hok
      have h1 := (createPostTry_ok w.initLibOk lib (Jvm.try_from w env s) jvm hok).1
      rw [try_from_ok w env s jvm h1]
  · intro htle env hcv
    rw [create_jvm_branch2 w opts lib s env htle hcv]
    refine ⟨by simp, ?_, ?_⟩
    · intro o
      exact branch_decision_not_in w env s w.initLibOk lib
        Event.attachedToExistingVm (Event.createdNewVm o) rfl (by simp)
    · intro jvm hok
      have h1 := (createPostTry_ok w.initLibOk lib (Jvm.try_from w env s) jvm hok).1
      rw [try_from_ok w env s jvm h1]
  · intro htle hcv hst
    rw [create_jvm_branch3_ok w opts lib s htle hcv hst]
    refine ⟨by simp, ?_⟩
    intro jvm hok
    have h1 := (createPostTry_ok w.initLibOk lib (Jvm.try_from w w.newVmEnv s) jvm hok).1
    rw [try_from_ok w w.newVmEnv s jvm h1]
  · intro htle hcv hst
    rw [create_jvm_branch3_fail w opts lib s htle hcv hst]
    exact ⟨rfl, by simp⟩

/-- Witness for C1: from a fresh process state, a creation emits the
brand-new-VM event with exactly the given options, and a failing native
create-VM call yields a `JavaError`. -/
theorem C1_create_jvm_contract_witness :
    Event.createdNewVm ["-Xmx256m"]
        ∈ (Jvm.create_jvm testWorld ["-Xmx256m"] none emptyLState).2.2 ∧
    (Jvm.create_jvm failWorld [] none emptyLState).1
      = Except.error (J4RsError.JavaError
          ("Could not create the JVM: " ++ jniErrorMessage failWorld.createVmStatus)) :=
  ⟨((C1_create_jvm_contract testWorld ["-Xmx256m"] none emptyLState).2.2.2.1
      rfl rfl rfl).1,
   ((C1_create_jvm_contract failWorld [] none emptyLState).2.2.2.2
      rfl rfl (by decide)).1⟩

/-- C4: The process-wide active-handle counter is incremented exactly once
per successfully created/attached Jvm handle and decremented exactly once per
handle drop: creating K handles and dropping all K leaves the counter at zero
and performs thread detachment and thread-local-environment clearing exactly
once — on the last drop, not K times (the drop event list is exactly one
optional detach followed by one clear); if the handle dropped last has
detach-on-drop disabled, the detachment step is skipped. -/
theorem C4_active_handle_counter
    (w : World) (opts : List String) (lib : Option String) (s0 s : LState)
    (jvm : Jvm) (hs : List Jvm) (jl : Jvm) :
    ((Jvm.create_jvm w opts lib s0).1 = Except.ok jvm →
        (Jvm.create_jvm w opts lib s0).2.1.active_jvms = s0.active_jvms + 1) ∧
    ((Jvm.drop jvm s).1.active_jvms = s.active_jvms - 1) ∧
    (s.active_jvms = hs.length → hs.getLast? = some jl →
        (Jvm.dropAll hs s).1.active_jvms = 0 ∧
        (Jvm.dropAll hs s).1.thread_local_env = none ∧
        (Jvm.dropAll hs s).2
          = (if jl.detach_thread_on_drop then [Event.detachedThread] else [])
             ++ [Event.clearedThreadLocalEnv]) :=
  ⟨fun h => create_jvm_ok_counter w opts lib s0 jvm h,
   drop_counter jvm s,
   fun h hl => dropAll_run hs s jl h hl⟩

/-- Witness for C4: a concrete successful creation increments the counter;
dropping two handles detaches and clears exactly once; dropping a
detach-disabled handle only clears. -/
theorem C4_active_handle_counter_witness :
    (Jvm.create_jvm testWorld [] none emptyLState).2.1.active_jvms
        = emptyLState.active_jvms + 1 ∧
    (Jvm.dropAll [⟨5, true⟩, ⟨5, true⟩] twoState).2
        = [Event.detachedThread, Event.clearedThreadLocalEnv] ∧
    (Jvm.dropAll [⟨5, false⟩] oneState).2 = [Event.clearedThreadLocalEnv] := by
  refine ⟨?_, ?_, ?_⟩
  · exact (C4_active_handle_counter testWorld [] none emptyLState emptyLState
      ⟨5, true⟩ [] ⟨5, true⟩).1 rfl
  · have h := ((C4_active_handle_counter testWorld [] none emptyLState twoState
      ⟨5, true⟩ [⟨5, true⟩, ⟨5, true⟩] ⟨5, true⟩).2.2 (by decide) (by decide)).2.2
    rw [h]
    decide
  · have h := ((C4_active_handle_counter testWorld [] none emptyLState oneState
      ⟨5, false⟩ [⟨5, false⟩] ⟨5, false⟩).2.2 (by decide) (by decide)).2.2
    rw [h]
    decide

/-- C2: For every engine operation that calls into the JVM (`create_instance`,
`invoke`, `invoke_static` — either of its two JVM calls —, `field`, `cast`,
`to_rust`, `invoke_to_channel`), if a JVM exception is pending after the call
then the operation returns `Err(JavaError)` and the pending-exception state is
described and cleared before returning, so no pending exception persists
across the boundary and a subsequent call on the same handle can succeed; if
no exception is pending the operation returns `Ok`. -/
theorem C2_exception_boundary {α : Type}
    (E : Entries) (w : OpWorld) (inst : Instance) (cn mn fieldName toClass : String)
    (args : List InvocationArg) (s : OpState)
    (parse : String → Except J4RsError α) (v : α)
    (hE : Entries.populatedB E = true) (hp : s.pending = false)
    (hparse : parse (w.jsonOf (w.globalRefOf w.callResultRef)) = Except.ok v) :
    clearsExceptions (fun t => Jvm.create_instance E w cn args t) s ∧
    clearsExceptions (fun t => Jvm.invoke E w inst mn args t) s ∧
    clearsExceptions (fun t => Jvm.invoke_static E w cn mn args t false) s ∧
    clearsExceptions (fun t => Jvm.invoke_static E w cn mn args false t) s ∧
    clearsExceptions (fun t => Jvm.field E w inst fieldName t) s ∧
    clearsExceptions (fun t => Jvm.cast E w inst toClass t) s ∧
    clearsExceptions (fun t => Jvm.to_rust E w inst parse t) s ∧
    clearsExceptions (fun t => Jvm.invoke_to_channel E w inst mn args t) s ∧
    (∀ s2 : OpState, s2.pending = false →
        ∃ out, (Jvm.invoke E w inst mn args false s2).1 = Except.ok out) := by
  obtain ⟨vA, hA⟩ := populated_get E hE CEntry.invocation_arg_class
  obtain ⟨vF, hF⟩ := populated_get E hE CEntry.factory_class
  obtain ⟨vI, hI⟩ := populated_get E hE CEntry.invoke_method
  obtain ⟨vM, hM⟩ := populated_get E hE CEntry.factory_instantiate_method
  obtain ⟨vS, hS⟩ := populated_get E hE CEntry.factory_create_for_static_method
  obtain ⟨vIS, hIS⟩ := populated_get E hE CEntry.invoke_static_method
  obtain ⟨vFd, hFd⟩ := populated_get E hE CEntry.field_method
  obtain ⟨vCt, hCt⟩ := populated_get E hE CEntry.class_to_invoke_clone_and_cast
  obtain ⟨vCa, hCa⟩ := populated_get E hE CEntry.cast_static_method
  obtain ⟨vGJ, hGJ⟩ := populated_get E hE CEntry.get_json_method
  obtain ⟨vTC, hTC⟩ := populated_get E hE CEntry.invoke_to_channel_method
  refine ⟨?_, ?_, ?_, ?_, ?_, ?_, ?_, ?_, ?_⟩
  · exact clears_of_run _ s _ _ _
      ((create_instance_run E w cn args true s vA vF vM hA hF hM hp).trans (if_pos rfl))
      ((create_instance_run E w cn args false s vA vF vM hA hF hM hp).trans
        (if_neg Bool.false_ne_true))
      rfl rfl (by simp) (by simp)
  · exact clears_of_run _ s _ _ _
      ((invoke_run E w inst mn args true s vA vI hA hI hp).trans (if_pos rfl))
      ((invoke_run E w inst mn args false s vA vI hA hI hp).trans
        (if_neg Bool.false_ne_true))
      rfl rfl (by simp) (by simp)
  · exact clears_of_run _ s _ _ _
      ((invoke_static_run E w cn mn args true false s vA vF vS vIS hA hF hS hIS hp).trans
        (if_pos rfl))
      ((invoke_static_run E w cn mn args false false s vA vF vS vIS hA hF hS hIS hp).trans
        (if_neg Bool.false_ne_true))
      rfl rfl (by simp) (by simp)
  · exact clears_of_run _ s _ _ _
      ((invoke_static_run E w cn mn args false true s vA vF vS vIS hA hF hS hIS hp).trans
        (if_pos rfl))
      ((invoke_static_run E w cn mn args false false s vA vF vS vIS hA hF hS hIS hp).trans
        (if_neg Bool.false_ne_true))
      rfl rfl (by simp) (by simp)
  · exact clears_of_run _ s _ _ _
      ((field_run E w inst fieldName true s vFd hFd hp).trans (if_pos rfl))
      ((field_run E w inst fieldName false s vFd hFd hp).trans (if_neg Bool.false_ne_true))
      rfl rfl (by simp) (by simp)
  · exact clears_of_run _ s _ _ _
      ((cast_run E w inst toClass true s vCt vCa hCt hCa hp).trans (if_pos rfl))
      ((cast_run E w inst toClass false s vCt vCa hCt hCa hp).trans
        (if_neg Bool.false_ne_true))
      rfl rfl (by simp) (by simp)
  · exact clears_of_run _ s _ _ _
      (to_rust_run_throws E w inst parse s vGJ hGJ hp)
      (to_rust_run_ok E w inst parse s vGJ v hGJ hp hparse)
      rfl rfl (by simp) (by simp)
  · exact clears_of_run _ s _ _ _
      ((invoke_to_channel_run E w inst mn args true s vA vTC hA hTC hp).trans
        (if_pos rfl))
      ((invoke_to_channel_run E w inst mn args false s vA vTC hA hTC hp).trans
        (if_neg Bool.false_ne_true))
      rfl rfl (by simp) (by simp)
  · intro s2 hp2
    exact ⟨_, congrArg Prod.fst ((invoke_run E w inst mn args false s2 vA vI hA hI hp2).trans
      (if_neg Bool.false_ne_true))⟩

/-- Witness for C2: on concrete fixtures, a throwing invoke yields the
`JavaError` and leaves no pending exception; a following clean invoke on the
same handle succeeds. -/
theorem C2_exception_boundary_witness :
    (Jvm.invoke testEntries testOpWorld testInstance "m" [] true cleanOpState).1
        = Except.error (J4RsError.JavaError exThrownMsg) ∧
    (Jvm.invoke testEntries testOpWorld testInstance "m" [] true cleanOpState).2.pending
        = false ∧
    (∃ out, (Jvm.invoke testEntries testOpWorld testInstance "m" []
        false (Jvm.invoke testEntries testOpWorld testInstance "m" [] true
          cleanOpState).2).1 = Except.ok out) := by
  have h := C2_exception_boundary testEntries testOpWorld testInstance "c.D" "m" "f" "t"
    [] cleanOpState (fun _ => Except.ok "json") "json" rfl rfl rfl
  exact ⟨h.2.1.1, h.2.1.2.1,
    h.2.2.2.2.2.2.2.2 _ h.2.1.2.1⟩

/-- C3 counterexample: the claim includes `clone_instance` among the
operations whose pending-exception check precedes taking the durable (global)
reference from the call's raw result — but `Jvm::clone_instance`
(api.rs 1195) evaluates `Instance::from(native_invocation_instance)?` (which
takes the global reference) as the argument of `do_return`, before the
exception check runs: on a concrete throwing call, the trace shows the
durable reference being taken, and taken before the check. -/
theorem C3_counterexample :
    (Jvm.clone_instance testEntries testOpWorld testInstance true cleanOpState).1
        = Except.error (J4RsError.JavaError exThrownMsg) ∧
    (Jvm.clone_instance testEntries testOpWorld testInstance true cleanOpState).2.events
        = [OEvent.jvmCalled, OEvent.tookGlobalRef RefSrc.callResult,
           OEvent.excChecked true, OEvent.excDescribed, OEvent.excCleared] := by
  exact ⟨rfl, rfl⟩

/-- C3 as amended: in `create_instance`, `invoke`, `invoke_static`, `field`,
`create_java_array`, `create_java_list` and `cast`, the pending-exception
check is performed before any durable (global) JVM reference is taken from
the call's raw result, so a throwing call in those operations never creates
such a reference; `clone_instance`, however, takes the durable reference from
the raw result first and checks afterwards — it still returns `Err(JavaError)`
on a throwing call, but the durable reference has been created. -/
theorem C3_check_before_promote
    (E : Entries) (w : OpWorld) (inst : Instance) (cn mn fieldName toClass : String)
    (args : List InvocationArg) (s : OpState)
    (hE : Entries.populatedB E = true) (hp : s.pending = false)
    (hev : s.events = []) :
    (OEvent.tookGlobalRef RefSrc.callResult
        ∉ (Jvm.create_instance E w cn args true s).2.events) ∧
    (OEvent.tookGlobalRef RefSrc.callResult
        ∉ (Jvm.invoke E w inst mn args true s).2.events) ∧
    (∀ tF tC : Bool, (tF || tC) = true →
        OEvent.tookGlobalRef RefSrc.callResult
          ∉ (Jvm.invoke_static E w cn mn args tF tC s).2.events) ∧
    (OEvent.tookGlobalRef RefSrc.callResult
        ∉ (Jvm.field E w inst fieldName true s).2.events) ∧
    (OEvent.tookGlobalRef RefSrc.callResult
        ∉ (Jvm.create_java_array E w cn args true s).2.events) ∧
    (OEvent.tookGlobalRef RefSrc.callResult
        ∉ (Jvm.create_java_list E w cn args true s).2.events) ∧
    (OEvent.tookGlobalRef RefSrc.callResult
        ∉ (Jvm.cast E w inst toClass true s).2.events) ∧
    ((Jvm.clone_instance E w inst true s).1
        = Except.error (J4RsError.JavaError exThrownMsg)) ∧
    ((Jvm.clone_instance E w inst true s).2.events
        = [OEvent.jvmCalled, OEvent.tookGlobalRef RefSrc.callResult,
           OEvent.excChecked true, OEvent.excDescribed, OEvent.excCleared]) := by
  obtain ⟨vA, hA⟩ := populated_get E hE CEntry.invocation_arg_class
  obtain ⟨vF, hF⟩ := populated_get E hE CEntry.factory_class
  obtain ⟨vI, hI⟩ := populated_get E hE CEntry.invoke_method
  obtain ⟨vM, hM⟩ := populated_get E hE CEntry.factory_instantiate_method
  obtain ⟨vS, hS⟩ := populated_get E hE CEntry.factory_create_for_static_method
  obtain ⟨vIS, hIS⟩ := populated_get E hE CEntry.invoke_static_method
  obtain ⟨vFd, hFd⟩ := populated_get E hE CEntry.field_method
  obtain ⟨vJA, hJA⟩ := populated_get E hE CEntry.factory_create_java_array_method
  obtain ⟨vJL, hJL⟩ := populated_get E hE CEntry.factory_create_java_list_method
  obtain ⟨vCt, hCt⟩ := populated_get E hE CEntry.class_to_invoke_clone_and_cast
  obtain ⟨vCa, hCa⟩ := populated_get E hE CEntry.cast_static_method
  obtain ⟨vCl, hCl⟩ := populated_get E hE CEntry.clone_static_method
  refine ⟨?_, ?_, ?_, ?_, ?_, ?_, ?_, ?_, ?_⟩
  · rw [(create_instance_run E w cn args true s vA vF vM hA hF hM hp).trans (if_pos rfl),
       hev]
    simp
  · rw [(invoke_run E w inst mn args true s vA vI hA hI hp).trans (if_pos rfl), hev]
    simp
  · intro tF tC htc
    rw [(invoke_static_run E w cn mn args tF tC s vA vF vS vIS hA hF hS hIS hp).trans
       (if_pos htc), hev]
    simp
  · rw [(field_run E w inst fieldName true s vFd hFd hp).trans (if_pos rfl), hev]
    simp
  · rw [(create_java_array_run E w cn args true s vA vF vJA hA hF hJA hp).trans
       (if_pos rfl), hev]
    simp
  · rw [(create_java_list_run E w cn args true s vA vF vJL hA hF hJL hp).trans
       (if_pos rfl), hev]
    simp
  · rw [(cast_run E w inst toClass true s vCt vCa hCt hCa hp).trans (if_pos rfl), hev]
    simp
  · rw [(clone_instance_run E w inst true s vCt vCl hCt hCl hp).trans (if_pos rfl)]
  · rw [(clone_instance_run E w inst true s vCt vCl hCt hCl hp).trans (if_pos rfl), hev]
    rfl

/-- Witness for C3's amended statement at concrete fixtures. -/
theorem C3_check_before_promote_witness :
    (OEvent.tookGlobalRef RefSrc.callResult
        ∉ (Jvm.create_instance testEntries testOpWorld "c.D" [] true
            cleanOpState).2.events) ∧
    (OEvent.tookGlobalRef RefSrc.callResult
        ∉ (Jvm.invoke_static testEntries testOpWorld "c.D" "m" [] true false
            cleanOpState).2.events) :=
  ⟨(C3_check_before_promote testEntries testOpWorld testInstance "c.D" "m" "f" "t"
      [] cleanOpState rfl rfl rfl).1,
   (C3_check_before_promote testEntries testOpWorld testInstance "c.D" "m" "f" "t"
      [] cleanOpState rfl rfl rfl).2.2.1 true false rfl⟩

/-- C10: For every successful `invoke`, `field`, `invoke_static`, `cast` and
`clone_instance` call, the `class_name` of the returned Instance is the fixed
sentinel string for classes unknown to the native side
(`cache::UNKNOWN_FOR_RUST`), never the actual runtime class of the result;
only `create_instance`, `create_java_array` and `create_java_list` record the
caller-requested class name in the returned Instance. -/
theorem C10_class_name_sentinel
    (E : Entries) (w : OpWorld) (inst : Instance) (cn mn fieldName toClass : String)
    (args : List InvocationArg) (s : OpState)
    (hE : Entries.populatedB E = true) (hp : s.pending = false) :
    ((Jvm.invoke E w inst mn args false s).1
        = Except.ok ⟨UNKNOWN_FOR_RUST, w.globalRefOf w.callResultRef⟩) ∧
    ((Jvm.field E w inst fieldName false s).1
        = Except.ok ⟨UNKNOWN_FOR_RUST, w.globalRefOf w.callResultRef⟩) ∧
    ((Jvm.invoke_static E w cn mn args false false s).1
        = Except.ok ⟨UNKNOWN_FOR_RUST, w.globalRefOf w.callResultRef⟩) ∧
    ((Jvm.cast E w inst toClass false s).1
        = Except.ok ⟨UNKNOWN_FOR_RUST, w.globalRefOf w.callResultRef⟩) ∧
    ((Jvm.clone_instance E w inst false s).1
        = Except.ok ⟨UNKNOWN_FOR_RUST, w.globalRefOf w.callResultRef⟩) ∧
    ((Jvm.create_instance E w cn args false s).1
        = Except.ok ⟨cn, w.globalRefOf w.callResultRef⟩) ∧
    ((Jvm.create_java_array E w cn args false s).1
        = Except.ok ⟨cn, w.globalRefOf w.callResultRef⟩) ∧
    ((Jvm.create_java_list E w cn args false s).1
        = Except.ok ⟨cn, w.globalRefOf w.callResultRef⟩) := by
  obtain ⟨vA, hA⟩ := populated_get E hE CEntry.invocation_arg_class
  obtain ⟨vF, hF⟩ := populated_get E hE CEntry.factory_class
  obtain ⟨vI, hI⟩ := populated_get E hE CEntry.invoke_method
  obtain ⟨vM, hM⟩ := populated_get E hE CEntry.factory_instantiate_method
  obtain ⟨vS, hS⟩ := populated_get E hE CEntry.factory_create_for_static_method
  obtain ⟨vIS, hIS⟩ := populated_get E hE CEntry.invoke_static_method
  obtain ⟨vFd, hFd⟩ := populated_get E hE CEntry.field_method
  obtain ⟨vJA, hJA⟩ := populated_get E hE CEntry.factory_create_java_array_method
  obtain ⟨vJL, hJL⟩ := populated_get E hE CEntry.factory_create_java_list_method
  obtain ⟨vCt, hCt⟩ := populated_get E hE CEntry.class_to_invoke_clone_and_cast
  obtain ⟨vCa, hCa⟩ := populated_get E hE CEntry.cast_static_method
  obtain ⟨vCl, hCl⟩ := populated_get E hE CEntry.clone_static_method
  refine ⟨?_, ?_, ?_, ?_, ?_, ?_, ?_, ?_⟩
  · exact congrArg Prod.fst
      ((invoke_run E w inst mn args false s vA vI hA hI hp).trans
        (if_neg Bool.false_ne_true))
  · exact congrArg Prod.fst
      ((field_run E w inst fieldName false s vFd hFd hp).trans
        (if_neg Bool.false_ne_true))
  · exact congrArg Prod.fst
      ((invoke_static_run E w cn mn args false false s vA vF vS vIS hA hF hS hIS hp).trans
        (if_neg Bool.false_ne_true))
  · exact congrArg Prod.fst
      ((cast_run E w inst toClass false s vCt vCa hCt hCa hp).trans
        (if_neg Bool.false_ne_true))
  · exact congrArg Prod.fst
      ((clone_instance_run E w inst false s vCt vCl hCt hCl hp).trans
        (if_neg Bool.false_ne_true))
  · exact congrArg Prod.fst
      ((create_instance_run E w cn args false s vA vF vM hA hF hM hp).trans
        (if_neg Bool.false_ne_true))
  · exact congrArg Prod.fst
      ((create_java_array_run E w cn args false s vA vF vJA hA hF hJA hp).trans
        (if_neg Bool.false_ne_true))
  · exact congrArg Prod.fst
      ((create_java_list_run E w cn args false s vA vF vJL hA hF hJL hp).trans
        (if_neg Bool.false_ne_true))

/-- Witness for C10 at concrete fixtures: invoke yields the sentinel,
create_instance records the requested name. -/
theorem C10_class_name_sentinel_witness :
    ((Jvm.invoke testEntries testOpWorld testInstance "m" [] false cleanOpState).1
        = Except.ok ⟨UNKNOWN_FOR_RUST, testOpWorld.globalRefOf testOpWorld.callResultRef⟩) ∧
    ((Jvm.create_instance testEntries testOpWorld "c.D" [] false cleanOpState).1
        = Except.ok ⟨"c.D", testOpWorld.globalRefOf testOpWorld.callResultRef⟩) :=
  ⟨(C10_class_name_sentinel testEntries testOpWorld testInstance "c.D" "m" "f" "t"
      [] cleanOpState rfl rfl).1,
   (C10_class_name_sentinel testEntries testOpWorld testInstance "c.D" "m" "f" "t"
      [] cleanOpState rfl rfl).2.2.2.2.2.1⟩

/-- C6: `invoke_to_channel` (and `init_callback_channel`) allocates a fresh
channel, boxes the sending half on the heap, and passes exactly the heap
address of that boxed sender, encoded as an `i64`, to the JVM-side call; the
returned `InstanceReceiver` stores that same address, exposes the receiving
half, and on drop reconstructs the boxed sender from the stored address and
frees it, reclaiming the heap allocation exactly once. -/
theorem C6_channel_address
    (E : Entries) (w : OpWorld) (inst : Instance) (mn : String)
    (args : List InvocationArg) (s : OpState)
    (hE : Entries.populatedB E = true) (hp : s.pending = false)
    (hfresh : s.nextAddr ∉ s.heap) :
    ((Jvm.invoke_to_channel E w inst mn args false s).1
        = Except.ok (InstanceReceiver.new s.nextAddr)) ∧
    ((InstanceReceiver.new s.nextAddr).tx_address = addrToI64 s.nextAddr) ∧
    ((InstanceReceiver.new s.nextAddr).rx = s.nextAddr) ∧
    (OEvent.channelCalled (addrToI64 s.nextAddr)
        ∈ (Jvm.invoke_to_channel E w inst mn args false s).2.events) ∧
    ((Jvm.invoke_to_channel E w inst mn args false s).2.heap
        = s.heap ++ [s.nextAddr]) ∧
    ((Jvm.invoke_to_channel E w inst mn args false s).2.heap.count s.nextAddr
        = s.heap.count s.nextAddr + 1) ∧
    ((InstanceReceiver.dropReceiver (InstanceReceiver.new s.nextAddr)
        (Jvm.invoke_to_channel E w inst mn args false s).2).heap = s.heap) ∧
    ((Jvm.init_callback_channel E w inst false s).1
        = Except.ok (InstanceReceiver.new s.nextAddr)) ∧
    (OEvent.channelCalled (addrToI64 s.nextAddr)
        ∈ (Jvm.init_callback_channel E w inst false s).2.events) := by
  obtain ⟨vA, hA⟩ := populated_get E hE CEntry.invocation_arg_class
  obtain ⟨vTC, hTC⟩ := populated_get E hE CEntry.invoke_to_channel_method
  obtain ⟨vIC, hIC⟩ := populated_get E hE CEntry.init_callback_channel_method
  have hrun := (invoke_to_channel_run E w inst mn args false s vA vTC hA hTC hp).trans
    (if_neg Bool.false_ne_true)
  have hrun2 := (init_callback_channel_run E w inst false s vIC hIC hp).trans
    (if_neg Bool.false_ne_true)
  refine ⟨congrArg Prod.fst hrun, rfl, rfl, ?_, ?_, ?_, ?_,
    congrArg Prod.fst hrun2, ?_⟩
  · rw [hrun]
    simp
  · rw [hrun]
  · rw [hrun]
    simp [List.count_append]
  · show ((Jvm.invoke_to_channel E w inst mn args false s).2.heap.erase
        (InstanceReceiver.new s.nextAddr).tx_address.toNat) = s.heap
    rw [hrun]
    show (s.heap ++ [s.nextAddr]).erase ((addrToI64 s.nextAddr).toNat) = s.heap
    rw [show (addrToI64 s.nextAddr).toNat = s.nextAddr from Int.toNat_natCast s.nextAddr]
    rw [List.erase_append_right _ hfresh, List.erase_cons_head, List.append_nil]
  · rw [hrun2]
    simp

/-- Witness for C6 at concrete fixtures. -/
theorem C6_channel_address_witness :
    ((Jvm.invoke_to_channel testEntries testOpWorld testInstance "m" [] false
        cleanOpState).1 = Except.ok (InstanceReceiver.new cleanOpState.nextAddr)) ∧
    ((InstanceReceiver.dropReceiver (InstanceReceiver.new cleanOpState.nextAddr)
        (Jvm.invoke_to_channel testEntries testOpWorld testInstance "m" [] false
          cleanOpState).2).heap = cleanOpState.heap) :=
  ⟨(C6_channel_address testEntries testOpWorld testInstance "m" [] cleanOpState
      rfl rfl (by decide)).1,
   (C6_channel_address testEntries testOpWorld testInstance "m" [] cleanOpState
      rfl rfl (by decide)).2.2.2.2.2.2.1⟩

/-- C5: Every Reference Cache entry (factory class and constructor, the
InvocationArg class and its three constructors, the factory methods
instantiate/createForStatic/createJavaArray/createJavaList, the proxy methods
invoke/invokeStatic/invokeToChannel/initializeCallbackChannel/field/getJson,
clone/cast, and the boxed-primitive classes with their constructors — the
whole `CEntry` enumeration) is resolved at most once per process: an entry
already populated before a creation is read back unchanged (never invalidated
or overwritten); one bring-up populates every entry; and a later Jvm
creation/attachment leaves the cache identical and performs no resolution at
all. -/
theorem C5_reference_cache_once
    (w w2 : World) (env env2 : Nat) (s : LState)
    (hf : w.jniFnsPresent = true) (hf2 : w2.jniFnsPresent = true) :
    (∀ e v, s.entries e = some v → (Jvm.try_from w env s).2.1.entries e = some v) ∧
    (∀ e, ((Jvm.try_from w env s).2.1.entries e).isSome = true) ∧
    ((Jvm.try_from w2 env2 (Jvm.try_from w env s).2.1).2.1.entries
        = (Jvm.try_from w env s).2.1.entries) ∧
    (∀ ev ∈ (Jvm.try_from w2 env2 (Jvm.try_from w env s).2.1).2.2,
        ev.isResolution = false) := by
  have h1 := try_from_entries_eq w env s hf
  have hpop : ∀ e, ((Jvm.try_from w env s).2.1.entries e).isSome = true := by
    intro e
    rw [h1]
    exact resolveAll_isSome w resolutionOrder s.entries e (mem_resolutionOrder e)
  have hcached :
      resolveAll w2 (Jvm.try_from w env s).2.1.entries resolutionOrder
        = ((Jvm.try_from w env s).2.1.entries, []) :=
    resolveAll_cached w2 resolutionOrder _ (fun e _ => hpop e)
  refine ⟨?_, hpop, ?_, ?_⟩
  · intro e v h
    rw [h1]
    exact resolveAll_preserve w resolutionOrder s.entries e v h
  · rw [try_from_entries_eq w2 env2 _ hf2, hcached]
  · intro ev hev
    rw [try_from_eq w2 env2 _ hf2, hcached] at hev
    rcases tryFromTail_events w2 env2 _ _ ev hev with h | h | h
    · cases h
    · rw [h]; rfl
    · rw [h]; rfl

/-- Witness for C5: concrete bring-up from the empty cache populates e.g. the
`invoke` method id, and a second attachment from another world resolves
nothing. -/
theorem C5_reference_cache_once_witness :
    ((Jvm.try_from testWorld 5 emptyLState).2.1.entries CEntry.invoke_method).isSome
        = true ∧
    ((Jvm.try_from failWorld 6 (Jvm.try_from testWorld 5 emptyLState).2.1).2.1.entries
        = (Jvm.try_from testWorld 5 emptyLState).2.1.entries) :=
  ⟨(C5_reference_cache_once testWorld failWorld 5 6 emptyLState rfl rfl).2.1
      CEntry.invoke_method,
   (C5_reference_cache_once testWorld failWorld 5 6 emptyLState rfl rfl).2.2.1⟩

/-- C7: For every supported native primitive type, converting a value to an
`InvocationArg` always yields the corresponding fixed JVM boxed-class name,
independent of the value: bool ↦ "java.lang.Boolean", i8 ↦ "java.lang.Byte",
char ↦ "java.lang.Character", i16 ↦ "java.lang.Short",
i32 ↦ "java.lang.Integer", i64 ↦ "java.lang.Long", f32 ↦ "java.lang.Float",
f64 ↦ "java.lang.Double", String/&str ↦ "java.lang.String", () ↦ "void" —
so the type-to-class-name round trip is the identity. -/
theorem C7_try_from_class_names (tle : Option Nat) (env : Nat) (h : tle = some env)
    (sv : String) (bv : Bool) (cv : Char) (jf32 jf64 : String)
    (n8 n16 n32 n64 : Int) :
    (InvocationArg.try_from_string sv tle).map InvocationArg.class_name
        = Except.ok "java.lang.String" ∧
    (InvocationArg.try_from_str sv tle).map InvocationArg.class_name
        = Except.ok "java.lang.String" ∧
    (InvocationArg.try_from_bool bv tle).map InvocationArg.class_name
        = Except.ok "java.lang.Boolean" ∧
    (InvocationArg.try_from_i8 n8 tle).map InvocationArg.class_name
        = Except.ok "java.lang.Byte" ∧
    (InvocationArg.try_from_char cv tle).map InvocationArg.class_name
        = Except.ok "java.lang.Character" ∧
    (InvocationArg.try_from_i16 n16 tle).map InvocationArg.class_name
        = Except.ok "java.lang.Short" ∧
    (InvocationArg.try_from_i32 n32 tle).map InvocationArg.class_name
        = Except.ok "java.lang.Integer" ∧
    (InvocationArg.try_from_i64 n64 tle).map InvocationArg.class_name
        = Except.ok "java.lang.Long" ∧
    (InvocationArg.try_from_f32 jf32 tle).map InvocationArg.class_name
        = Except.ok "java.lang.Float" ∧
    (InvocationArg.try_from_f64 jf64 tle).map InvocationArg.class_name
        = Except.ok "java.lang.Double" ∧
    (InvocationArg.try_from_unit tle).map InvocationArg.class_name
        = Except.ok "void" := by
  subst h
  refine ⟨rfl, rfl, rfl, rfl, rfl, rfl, rfl, rfl, rfl, rfl, rfl⟩

/-- Witness for C7 at a concrete environment and concrete values. -/
theorem C7_try_from_class_names_witness :
    (InvocationArg.try_from_bool true (some 7)).map InvocationArg.class_name
        = Except.ok "java.lang.Boolean" ∧
    (InvocationArg.try_from_i64 42 (some 7)).map InvocationArg.class_name
        = Except.ok "java.lang.Long" :=
  ⟨(C7_try_from_class_names (some 7) 7 rfl "s" true 'c' "0.1" "0.1" 1 1 1 42).2.2.1,
   (C7_try_from_class_names (some 7) 7 rfl "s" true 'c' "0.1" "0.1" 1 1 1 42).2.2.2.2.2.2.2.1⟩

/-- C8: `into_primitive` is a consuming transform that rewrites the class name
to the primitive descriptor whenever a boxed-to-primitive mapping exists for
the current class name (every boxed-numeric class, `java.lang.Boolean`,
`java.lang.Character` and `void`), for every `InvocationArg` variant, and
returns a descriptive error — it does not panic — when no mapping exists, in
particular for "java.lang.String". -/
theorem C8_into_primitive (i : Instance) (j : String) (cn : String) (sz : Bool)
    (p : String) :
    (primitive_of cn = some p →
        (InvocationArg.Java i cn sz).into_primitive = Except.ok (InvocationArg.Java i p sz) ∧
        (InvocationArg.Rust j cn sz).into_primitive = Except.ok (InvocationArg.Rust j p sz) ∧
        (InvocationArg.RustBasic i cn sz).into_primitive
            = Except.ok (InvocationArg.RustBasic i p sz)) ∧
    (primitive_of cn = none →
        ∀ a : InvocationArg, a.class_name = cn →
          a.into_primitive = Except.error
            (J4RsError.JavaError ("Cannot transform to primitive: " ++ cn))) ∧
    (primitive_of "java.lang.Boolean" = some "boolean" ∧
     primitive_of "java.lang.Byte" = some "byte" ∧
     primitive_of "java.lang.Short" = some "short" ∧
     primitive_of "java.lang.Integer" = some "int" ∧
     primitive_of "java.lang.Long" = some "long" ∧
     primitive_of "java.lang.Float" = some "float" ∧
     primitive_of "java.lang.Double" = some "double" ∧
     primitive_of "java.lang.Character" = some "char" ∧
     primitive_of "void" = some "void" ∧
     primitive_of "java.lang.String" = none) := by
  refine ⟨?_, ?_, by decide⟩
  · intro hm
    refine ⟨?_, ?_, ?_⟩ <;>
      simp [InvocationArg.into_primitive, InvocationArg.make_primitive,
            InvocationArg.class_name, hm]
  · intro hn a ha
    cases a <;>
      simp_all [InvocationArg.into_primitive, InvocationArg.make_primitive,
                InvocationArg.class_name]

/-- Witness for C8: a concrete boxed Integer argument is rewritten to "int",
and a concrete String argument fails. -/
theorem C8_into_primitive_witness :
    (InvocationArg.Rust "1" "java.lang.Integer" true).into_primitive
        = Except.ok (InvocationArg.Rust "1" "int" true) ∧
    (InvocationArg.Rust "\"s\"" "java.lang.String" true).into_primitive
        = Except.error
            (J4RsError.JavaError ("Cannot transform to primitive: " ++ "java.lang.String")) :=
  ⟨((C8_into_primitive ⟨"x", 0⟩ "1" "java.lang.Integer" true "int").1 (by decide)).2.1,
   (C8_into_primitive ⟨"x", 0⟩ "j" "java.lang.String" true "?").2.1 (by decide)
     (InvocationArg.Rust "\"s\"" "java.lang.String" true) rfl⟩

/-- C9 counterexample: `InvocationArg::new` panics even with a live
thread-local environment when the underlying conversion fails.  The value
modelled by `RustValue.vOther none` is any `Serialize + Any` value whose
`serde_json::to_string` fails (for example a map with non-string keys); with
a live environment (`some 1`), `new_2` returns the serialization error and
the second `expect` of `InvocationArg::new` (api.rs 1680) panics — refuting
"for any input, given a live thread-local environment, InvocationArg::new
does not panic". -/
theorem C9_counterexample :
    (some 1 : Option Nat).isSome = true ∧
    InvocationArg.new (RustValue.vOther none) "com.example.Custom" (some 1) = none := by
  decide

/-- C9 as amended: all modelled engine operations return a `Result`;
`InvocationArg::new` panics exactly when no thread-local JNI environment
exists or when the underlying conversion (`new_2`) fails (for example when
JSON serialization of the argument fails); for any input whose conversion
succeeds, given a live thread-local environment, it does not panic. -/
theorem C9_new_panic_conditions (arg : RustValue) (cn : String) (env : Nat) :
    (InvocationArg.new arg cn none = none) ∧
    (∀ ia, InvocationArg.new_2 arg cn env = Except.ok ia →
        InvocationArg.new arg cn (some env) = some ia) ∧
    (∀ err, InvocationArg.new_2 arg cn env = Except.error err →
        InvocationArg.new arg cn (some env) = none) := by
  refine ⟨rfl, ?_, ?_⟩
  · intro ia h
    simp [InvocationArg.new, h]
  · intro err h
    simp [InvocationArg.new, h]

/-- Witness for C9's amended statement: a concrete successful conversion does
not panic, and a concrete failing conversion panics. -/
theorem C9_new_panic_conditions_witness :
    InvocationArg.new (RustValue.vBool true) "java.lang.Boolean" (some 7)
        = some (InvocationArg.Rust "true" "java.lang.Boolean" true) ∧
    InvocationArg.new (RustValue.vOther none) "a.B" (some 7) = none :=
  ⟨(C9_new_panic_conditions (RustValue.vBool true) "java.lang.Boolean" 7).2.1
      (InvocationArg.Rust "true" "java.lang.Boolean" true) rfl,
   (C9_new_panic_conditions (RustValue.vOther none) "a.B" 7).2.2
      (J4RsError.ParseError "JSON serialization error") rfl⟩

end J4rs
